import Mathlib

/-!
Verification development for the Eleventh Beast game engine
(`lib/server/game-engine.ts`).

The engine is a seeded, deterministic state machine.  We embed it
shallowly:

* the seeded `seedrandom` stream and the outputs of `generateId`
  (which mixes `Date.now()` and `Math.random()`) are ambient inputs,
  modelled as streams indexed by a per-state counter (`Env`);
* `Date.now()` values used for `start_time` and log timestamps are
  never read back by the engine, so states record the index of the
  clock sample and `realizeGameData`/`realizeLogEntry` apply a clock
  stream to produce the caller-visible numbers;
* machine numbers that can transiently go negative
  (`actions_remaining`, die results) are `ℤ`; counters are `ℕ`;
* the JS `Record<string, boolean>` of rumor tokens only ever stores
  `true` and is keyed by fresh keys, so it is a `List String` of the
  keys in insertion order.
-/

namespace EleventhBeast

/- `Rat.mul` is `@[irreducible]` in Batteries, which blocks `decide`
on concrete engine runs; restore the default transparency for this
file. -/
attribute [local semireducible] Rat.mul

/-- The `GamePhase` enum of the source. -/
inductive GamePhase
  | beastApproaches
  | takeActions
  | hunt
  | gameEnded
deriving DecidableEq, Repr

/-- A map location (`Location` in the source); `x`/`y` are cosmetic. -/
structure Location where
  id : String
  name : String
  x : ℕ
  y : ℕ
deriving DecidableEq, Repr

/-- `RumorCategory` of the source. -/
inductive RumorCategory
  | ward
  | weapon
deriving DecidableEq, Repr

/-- An entry of `RUMOR_POOL` (`RumorDefinition` in the source). -/
structure RumorDefinition where
  text : String
  category : RumorCategory
deriving DecidableEq, Repr

/-- `Rumor` of the source. -/
structure Rumor where
  id : String
  location : String
  note : String
  verified : Bool
  is_false : Bool
  is_learned : Bool
  category : RumorCategory
deriving DecidableEq, Repr

/-- `Secret` of the source. -/
structure Secret where
  id : String
  secret : String
  category : RumorCategory
deriving DecidableEq, Repr

/-- A ward or weapon entry (`{id, name}` objects in the source). -/
structure Item where
  id : String
  name : String
deriving DecidableEq, Repr

/-- `GameLogEntry` of the source.  `timestamp` stores the index of the
`Date.now()` sample that produced it; the engine never reads it back,
and `realizeLogEntry` turns the index into the sampled value. -/
structure GameLogEntry where
  id : String
  message : String
  timestamp : ℕ
deriving DecidableEq, Repr

/-- The `investigation` sub-object of `GameData`.  `notes` is never
written by the engine. -/
structure Investigation where
  rumors : List Rumor
  secrets : List Secret
  notes : List (String × String)
deriving DecidableEq, Repr

/-- `GameData` of the source.  `start_time` stores the index of the
`Date.now()` sample taken at construction (always `0`); the engine
never reads it back, and `realizeGameData` turns the index into the
sampled value.  The optional `session_id` is never assigned by the
engine and is omitted. -/
structure GameData where
  beast_name : String
  inquisitor_name : String
  current_day : ℕ
  current_month : String
  current_year : ℕ
  seed : ℕ
  player_location : String
  health : ℕ
  knowledge : ℕ
  wounds : ℕ
  beast_location : Option String
  beast_distance : Option ℤ
  investigation : Investigation
  wards : List Item
  weapons : List Item
  rumors_tokens : List String
  game_ended : Bool
  victorious : Bool
  game_phase : GamePhase
  actions_remaining : ℤ
  current_round : ℕ
  start_time : ℕ
  days_elapsed : ℕ
  investigations_completed : ℕ
  equipment_collected : ℕ
deriving DecidableEq, Repr

/-- `GameResponse` of the source.  The static `locations` and
`location_connections` copies returned by `getGameState` are constants
and are not modelled as response fields. -/
structure GameResponse where
  success : Bool
  message : String
  game_data : Option GameData
  game_log : Option (List GameLogEntry)
  dice_rolls : Option (List ℤ)
  lowest_roll : Option ℤ
deriving DecidableEq, Repr

/-- The private fields of a `GameEngine` instance, plus the three
counters indexing the ambient streams (rng steps, `generateId` calls,
`Date.now()` samples). -/
structure EngineState where
  gameData : GameData
  gamePhase : GamePhase
  gameLog : List GameLogEntry
  rngCtr : ℕ
  idCtr : ℕ
  timeCtr : ℕ
deriving DecidableEq, Repr

/-- Ambient inputs of one engine run: the outputs of `generateId`
(derived from `Date.now()`/`Math.random()`, not seeded) and the
`seedrandom` stream, one value per rng call. `seedrandom` is a
deterministic function of the seed string, so two engines with the
same seed read the same `rng` stream. -/
structure Env where
  idSrc : ℕ → String
  rng : ℕ → ℚ

def MONTH_SEQUENCE : List String :=
  ["May", "June", "July", "August", "September", "October", "November", "December"]

def LOCATIONS : List Location :=
  [ { id := "I", name := "The Royal Exchange", x := 50, y := 20 },
    { id := "II", name := "All-Hallows-The-Great", x := 30, y := 40 },
    { id := "III", name := "Billingsgate Dock", x := 70, y := 35 },
    { id := "IV", name := "London Bridge", x := 60, y := 55 },
    { id := "V", name := "St. Thomas' Hospital", x := 40, y := 65 },
    { id := "VI", name := "Coxes Wharf", x := 75, y := 70 },
    { id := "VII", name := "Marshalsea Prison", x := 35, y := 85 },
    { id := "VIII", name := "Burying Ground", x := 55, y := 90 } ]

/-- `LOCATION_CONNECTIONS`; the record lookup `??  []` default of the
source is the catch-all branch. -/
def LOCATION_CONNECTIONS : String → List String
  | "I" => ["II", "III"]
  | "II" => ["I", "IV", "V"]
  | "III" => ["I", "IV"]
  | "IV" => ["II", "III", "V", "VI"]
  | "V" => ["II", "IV", "VII", "VIII"]
  | "VI" => ["IV", "VIII"]
  | "VII" => ["V", "VIII"]
  | "VIII" => ["V", "VI", "VII"]
  | _ => []

def RUMOR_POOL : List RumorDefinition :=
  [ { text := "The creature moves only at night...", category := .ward },
    { text := "It feeds on the sins of men...", category := .weapon },
    { text := "A red cross marks its true name...", category := .ward },
    { text := "It fears running water and iron...", category := .weapon },
    { text := "The beast was summoned by dark rituals...", category := .ward },
    { text := "Its screams can shatter the mind...", category := .weapon },
    { text := "It leaves no trace, only destruction...", category := .ward },
    { text := "Some say it is immortal...", category := .weapon } ]

def ROMAN_NUMERALS : List String :=
  ["I", "II", "III", "IV", "V", "VI", "VII", "VIII"]

def MAX_WOUNDS : ℕ := 3

/-- One `generateId()` call: consume the next ambient id. -/
def generateId (env : Env) (s : EngineState) : String × EngineState :=
  (env.idSrc s.idCtr, { s with idCtr := s.idCtr + 1 })

/-- One `Date.now()` call whose value lands in the state: record the
sample index (realized later against a clock stream). -/
def dateNow (s : EngineState) : ℕ × EngineState :=
  (s.timeCtr, { s with timeCtr := s.timeCtr + 1 })

/-- `addToLog`: appends an entry whose message carries the current
round prefix. -/
def addToLog (env : Env) (message : String) (s : EngineState) : EngineState :=
  let (eid, s) := generateId env s
  let (t, s) := dateNow s
  { s with gameLog := s.gameLog ++
      [{ id := eid
         message := "[Round " ++ toString s.gameData.current_round ++ "] " ++ message
         timestamp := t }] }

/-- `updateHealth`: `health = Math.max(0, MAX_WOUNDS - wounds)`; the
truncated `ℕ` subtraction is exactly the clamped value. -/
def updateHealth (s : EngineState) : EngineState :=
  { s with gameData := { s.gameData with health := MAX_WOUNDS - s.gameData.wounds } }

/-- `rollDie(sides, context)`: one rng step, result
`Math.floor(u * sides) + 1`, then `logRoll`. -/
def rollDie (env : Env) (sides : ℕ) (context : String) (s : EngineState) :
    ℤ × EngineState :=
  let result : ℤ := (env.rng s.rngCtr * mkRat sides 1).floor + 1
  let s := { s with rngCtr := s.rngCtr + 1 }
  let s := addToLog env
    ("Roll 1d" ++ toString sides ++ " (" ++ context ++ ") - Result: " ++ toString result) s
  (result, s)

/-- `randomChoice`: one rng step picking an index.  For `u ∈ [0,1)` and
a non-empty list the index is in range, so the `getD` default is dead
code. -/
def randomChoice (env : Env) (items : List RumorDefinition) (s : EngineState) :
    RumorDefinition × EngineState :=
  let idx := ((env.rng s.rngCtr * mkRat items.length 1).floor).toNat
  (items.getD idx { text := "", category := .ward }, { s with rngCtr := s.rngCtr + 1 })

def findLocationName (id : String) : String :=
  (((LOCATIONS.find? (fun l => l.id == id)).map Location.name)).getD "Unknown"

/-- `truncateText` with its default `maxLength = 60`. -/
def truncateText (text : String) (maxLength : ℕ := 60) : String :=
  if text.length ≤ maxLength then text
  else text.take (maxLength - 3) ++ "..."

/-- The body of the `while` loop of `findPath`, with explicit fuel.
The source loop terminates because entries enter the queue only from
the at most eight productive pops (each marking a fresh location
visited), so at most `1 + 8·4` pops occur; fuel `100` is ample. -/
def findPathAux (toLoc : String) : ℕ → List (String × List String) → List String → List String
  | 0, _, _ => []
  | _ + 1, [], _ => []
  | fuel + 1, (location, path) :: queue, visited =>
    if visited.contains location then
      findPathAux toLoc fuel queue visited
    else
      let visited := visited ++ [location]
      if location = toLoc then path
      else
        let queue := queue ++
          (((LOCATION_CONNECTIONS location).filter (fun n => ¬ visited.contains n)).map
            (fun n => (n, path ++ [n])))
        findPathAux toLoc fuel queue visited

/-- `findPath(from, to)`: breadth-first search returning the node
sequence from `from` to `to` inclusive, `[]` if unreachable. -/
def findPath (fromLoc toLoc : String) : List String :=
  if fromLoc = toLoc then [fromLoc]
  else findPathAux toLoc 100 [(fromLoc, [fromLoc])] []

/-- `calculateDistance(from, to)`. -/
def calculateDistance (fromLoc toLoc : String) : ℤ :=
  if fromLoc = toLoc then 0
  else
    let path := findPath fromLoc toLoc
    if path.length > 0 then (path.length : ℤ) - 1 else -1

/-- `moveBeastCloser`. -/
def moveBeastCloser (env : Env) (s : EngineState) : EngineState :=
  match s.gameData.beast_location with
  | none => s
  | some beastLoc =>
    let playerLoc := s.gameData.player_location
    let path := findPath beastLoc playerLoc
    if path.length = 0 then
      s
    else if path.length = 2 then
      let s := { s with gameData :=
        { s.gameData with beast_location := some playerLoc, beast_distance := some 0 } }
      let s := addToLog env "The Beast lunges onto your location!" s
      { s with gamePhase := GamePhase.hunt }
    else if path.length > 2 then
      let nextStep := (path.get? 1).getD beastLoc
      { s with gameData :=
        { s.gameData with beast_location := some nextStep
                          beast_distance := some ((path.length : ℤ) - 2) } }
    else s

/-- `endGame(victory)`. -/
def endGame (env : Env) (victory : Bool) (s : EngineState) : EngineState :=
  let s := { s with
    gameData := { s.gameData with game_ended := true, victorious := victory }
    gamePhase := GamePhase.gameEnded }
  if victory then
    addToLog env
      ("VICTORY! " ++ s.gameData.inquisitor_name ++ " has defeated "
        ++ s.gameData.beast_name ++ "!") s
  else
    addToLog env ("DEFEAT! " ++ s.gameData.inquisitor_name ++ " has fallen in combat.") s

/-- The tail of `executeBeastApproachesPhase` after token handling
(source lines 530-552): surprise check at the rolled location, then the
1d6 beast-movement roll. -/
def beastApproachTail (env : Env) (targetLocation locationName : String)
    (s : EngineState) : EngineState :=
  if s.gameData.beast_location = some targetLocation
      ∧ s.gameData.player_location = targetLocation then
    let s := addToLog env
      ("SURPRISE! The Beast is here with you at " ++ locationName ++ " (Location "
        ++ targetLocation ++ ")! A hunt is triggered!") s
    { s with gamePhase := GamePhase.hunt }
  else if s.gameData.beast_location.isSome then
    let (moveRoll, s) := rollDie env 6 "The Beast Approaches (Movement)" s
    if moveRoll ≥ 5 then
      let s := addToLog env "The Beast moves closer... It approaches your location!" s
      let s := moveBeastCloser env s
      if s.gameData.beast_location = some s.gameData.player_location then
        let s := addToLog env
          ("SURPRISE! The Beast is here with you at " ++ locationName ++ " (Location "
            ++ targetLocation ++ ")! A hunt is triggered!") s
        { s with gamePhase := GamePhase.hunt }
      else s
    else s
  else s

/-- `executeBeastApproachesPhase`. -/
def executeBeastApproachesPhase (env : Env) (s : EngineState) : EngineState :=
  let (roll, s) := rollDie env 8 "The Beast Approaches (Location)" s
  let targetLocation := ROMAN_NUMERALS.getD (roll - 1).toNat ""
  let locationName := findLocationName targetLocation
  let s := addToLog env
    ("THE BEAST APPROACHES - A whisper on the wind... The " ++ s.gameData.beast_name
      ++ " stirs at " ++ locationName ++ " (Location " ++ targetLocation ++ ").") s
  let beastAlreadyOnTile := s.gameData.beast_location = some targetLocation
  let hasRumorToken := s.gameData.rumors_tokens.contains targetLocation
  let beastCurrentlyOnMap := s.gameData.beast_location.isSome
  if hasRumorToken then
    let s :=
      if ¬ beastCurrentlyOnMap then
        let s := { s with gameData :=
          { s.gameData with
              beast_location := some targetLocation
              beast_distance := some
                (calculateDistance s.gameData.player_location targetLocation) } }
        addToLog env
          ("The Beast has ARRIVED! " ++ s.gameData.beast_name ++ " materializes at "
            ++ locationName ++ " (Location " ++ targetLocation ++ ")!") s
      else if ¬ beastAlreadyOnTile then
        addToLog env
          ("The rumor at " ++ locationName ++ " (Location " ++ targetLocation
            ++ ") intensifies, but the Beast is already on the hunt elsewhere.") s
      else s
    beastApproachTail env targetLocation locationName s
  else
    let s := { s with gameData :=
      { s.gameData with rumors_tokens := s.gameData.rumors_tokens ++ [targetLocation] } }
    if ¬ beastCurrentlyOnMap then
      addToLog env
        ("A Rumor Token appears at " ++ locationName ++ " (Location "
          ++ targetLocation ++ ").") s
    else
      beastApproachTail env targetLocation locationName s

/-- `getSerializableGameData`: runs `updateHealth` (a mutation of the
engine state) and returns the snapshot, whose `game_phase` field is
overwritten with the live phase. -/
def getSerializableGameData (s : EngineState) : GameData × EngineState :=
  let s := updateHealth s
  ({ s.gameData with game_phase := s.gamePhase }, s)

/-- Builds the common response shape (`createGameStateResponse` and the
literal response objects of the source all take a fresh snapshot and a
copy of the log). -/
def respond (success : Bool) (message : String) (dice_rolls : Option (List ℤ))
    (lowest_roll : Option ℤ) (s : EngineState) : EngineState × GameResponse :=
  let (data, s) := getSerializableGameData s
  (s, { success := success, message := message, game_data := some data
        game_log := some s.gameLog, dice_rolls := dice_rolls
        lowest_roll := lowest_roll })

/-- `createGameStateResponse(message)`. -/
def createGameStateResponse (message : String) (s : EngineState) :
    EngineState × GameResponse :=
  respond true message none none s

/-- The `success: false` early returns of the operations. -/
def failureResponse (message : String) (s : EngineState) : EngineState × GameResponse :=
  respond false message none none s

/-- `movePlayer(targetLocation)`. -/
def movePlayer (env : Env) (targetLocation : String) (s : EngineState) :
    EngineState × GameResponse :=
  if (LOCATION_CONNECTIONS s.gameData.player_location).contains targetLocation then
    let locationName := findLocationName targetLocation
    let s := { s with gameData := { s.gameData with player_location := targetLocation } }
    let s := addToLog env
      (s.gameData.inquisitor_name ++ " moves to " ++ locationName ++ " (Location "
        ++ targetLocation ++ ").") s
    let s :=
      if s.gameData.beast_location = some targetLocation then
        let s := addToLog env
          ("SURPRISE! " ++ s.gameData.beast_name ++ " is here at " ++ locationName
            ++ " (Location " ++ targetLocation ++ ")! A hunt is triggered!") s
        { s with gamePhase := GamePhase.hunt }
      else s
    createGameStateResponse ("Moved to " ++ locationName) s
  else
    failureResponse
      ("Cannot move to " ++ targetLocation ++ " from " ++ s.gameData.player_location
        ++ ". Must be adjacent location.") s

/-- `investigate()`. -/
def investigate (env : Env) (s : EngineState) : EngineState × GameResponse :=
  if s.gameData.actions_remaining ≤ 0 then
    failureResponse "No actions remaining" s
  else if ¬ s.gameData.rumors_tokens.contains s.gameData.player_location then
    failureResponse "No Rumor Token at this location to investigate!" s
  else
    let s := { s with gameData :=
      { s.gameData with
          rumors_tokens := s.gameData.rumors_tokens.erase s.gameData.player_location } }
    let locationName := findLocationName s.gameData.player_location
    let existingNotes := s.gameData.investigation.rumors.map Rumor.note
    let availableRumors := RUMOR_POOL.filter (fun r => ¬ existingNotes.contains r.text)
    let (selectedRumor, s) :=
      randomChoice env (if availableRumors.length > 0 then availableRumors else RUMOR_POOL) s
    let (rid, s) := generateId env s
    let newRumor : Rumor :=
      { id := rid, location := s.gameData.player_location, note := selectedRumor.text
        verified := false, is_false := false, is_learned := false
        category := selectedRumor.category }
    let s := { s with gameData :=
      { s.gameData with
          investigation := { s.gameData.investigation with
            rumors := s.gameData.investigation.rumors ++ [newRumor] }
          investigations_completed := s.gameData.investigations_completed + 1 } }
    let s := addToLog env
      (s.gameData.inquisitor_name ++ " investigates at " ++ locationName ++ " (Location "
        ++ s.gameData.player_location ++ ") and uncovers a rumor: \"" ++ selectedRumor.text
        ++ "\"") s
    createGameStateResponse "Investigation complete. New rumor added." s

/-- One iteration of the verification loop of `verifyRumors` on an
unverified rumor: roll, mark, log. -/
def verifyOneRumor (env : Env) (r : Rumor) (s : EngineState) : Rumor × EngineState :=
  let (roll, s) := rollDie env 6 ("Verify Rumor \"" ++ truncateText r.note ++ "\"") s
  if roll ≥ 5 then
    ({ r with verified := true, is_false := true, is_learned := false },
      addToLog env
        ("Rumor verification failed: \"" ++ r.note ++ "\" is marked as a false rumor.") s)
  else
    ({ r with verified := true, is_false := false, is_learned := true },
      addToLog env
        ("Rumor verified as truth: \"" ++ r.note
          ++ "\" becomes a Learned Secret and provides insight into the Beast.") s)

/-- The verification loop of `verifyRumors`: processes the unverified
rumors in list order (already-verified ones pass through untouched) and
counts the false/learned outcomes. -/
def verifySweep (env : Env) : List Rumor → EngineState → List Rumor × ℕ × ℕ × EngineState
  | [], s => ([], 0, 0, s)
  | r :: rest, s =>
    if r.verified then
      let (rest', f, l, s) := verifySweep env rest s
      (r :: rest', f, l, s)
    else
      let (r', s) := verifyOneRumor env r s
      let (rest', f, l, s) := verifySweep env rest s
      (r' :: rest',
        (if r'.is_false then f + 1 else f),
        (if r'.is_learned then l + 1 else l), s)

/-- The promotion loop of `verifyRumors` (source lines 333-350): walks
all rumors in order, appending a `Secret` for each learned rumor whose
id is not yet present, and, for a newly added secret, the matching ward
or weapon entry when its id is fresh. -/
def promoteSecrets : List Rumor → List Secret → List Item → List Item →
    List Secret × List Item × List Item
  | [], secrets, wards, weapons => (secrets, wards, weapons)
  | r :: rest, secrets, wards, weapons =>
    if r.is_learned = true ∧ (∀ sec ∈ secrets, sec.id ≠ r.id) then
      let secrets := secrets ++ [{ id := r.id, secret := r.note, category := r.category }]
      let wards :=
        if r.category = RumorCategory.ward ∧ (∀ w ∈ wards, w.id ≠ r.id) then
          wards ++ [{ id := r.id, name := r.note }]
        else wards
      let weapons :=
        if r.category = RumorCategory.weapon ∧ (∀ w ∈ weapons, w.id ≠ r.id) then
          weapons ++ [{ id := r.id, name := r.note }]
        else weapons
      promoteSecrets rest secrets wards weapons
    else
      promoteSecrets rest secrets wards weapons

/-- `verifyRumors()`. -/
def verifyRumors (env : Env) (s : EngineState) : EngineState × GameResponse :=
  if s.gameData.player_location ≠ "II" then
    failureResponse "You can only verify rumors at All-Hallows-The-Great (Location II)!" s
  else if s.gameData.actions_remaining ≤ 0 then
    failureResponse "No actions remaining" s
  else if (s.gameData.investigation.rumors.filter (fun r => !r.verified)).length = 0 then
    failureResponse "You have no unverified rumors to verify!" s
  else
    let (rumors', falseCount, learnedCount, s) :=
      verifySweep env s.gameData.investigation.rumors s
    let s := { s with gameData :=
      { s.gameData with investigation :=
        { s.gameData.investigation with rumors := rumors' } } }
    let (secrets', wards', weapons') :=
      promoteSecrets rumors' s.gameData.investigation.secrets s.gameData.wards
        s.gameData.weapons
    let s := { s with gameData :=
      { s.gameData with
          investigation := { s.gameData.investigation with secrets := secrets' }
          wards := wards', weapons := weapons' } }
    let s := { s with gameData :=
      { s.gameData with
          equipment_collected := s.gameData.wards.length + s.gameData.weapons.length } }
    let s := addToLog env
      (s.gameData.inquisitor_name ++ " completes verification at All-Hallows-The-Great. "
        ++ toString learnedCount ++ " truth(s) learned, " ++ toString falseCount
        ++ " false rumor(s) dismissed.") s
    createGameStateResponse
      ("Verification complete. " ++ toString learnedCount ++ " truths learned, "
        ++ toString falseCount ++ " false rumors dismissed.") s

/-- The dice loop of `huntBeast`: `total` sequential 1d6 rolls with
1-based contexts; called with the remaining count. -/
def rollHuntDice (env : Env) (total : ℕ) : ℕ → EngineState → List ℤ × EngineState
  | 0, s => ([], s)
  | n + 1, s =>
    let idx := total - n
    let (roll, s) :=
      rollDie env 6 ("Hunt (" ++ toString idx ++ "/" ++ toString total ++ ")") s
    let (rest, s) := rollHuntDice env total n s
    (roll :: rest, s)

/-- `Math.min(...rolls)` over a non-empty list (the `[]` value is dead
code: the loop is only entered with a positive count). -/
def lowestOf : List ℤ → ℤ
  | [] => 0
  | [x] => x
  | x :: y :: rest => min x (lowestOf (y :: rest))

/-- The zero-dice branch of `huntBeast`: one wound, defeat-threshold
check, phase reset unless the game ended. -/
def huntNoDice (env : Env) (s : EngineState) : EngineState :=
  let s := { s with gameData := { s.gameData with wounds := s.gameData.wounds + 1 } }
  let s := updateHealth s
  let s := addToLog env
    "You have no dice for the hunt! You take 1 wound and the Beast survives." s
  let s := if s.gameData.wounds ≥ 3 then endGame env false s else s
  if ¬ s.gameData.game_ended then { s with gamePhase := GamePhase.takeActions } else s

/-- The outcome dispatch of `huntBeast` on the minimum die value. -/
def huntOutcome (env : Env) (lowestRoll : ℤ) (s : EngineState) : String × EngineState :=
  if lowestRoll ≤ 2 then
    let s := addToLog env
      ("HUNT SUCCESS! " ++ s.gameData.inquisitor_name ++ " has slain the "
        ++ s.gameData.beast_name ++ "!") s
    ("Victory! Beast slain!", endGame env true s)
  else if lowestRoll ≤ 4 then
    let s := { s with gameData :=
      { s.gameData with wounds := s.gameData.wounds + 1 } }
    let s := updateHealth s
    let s := addToLog env
      ("The Beast survives! " ++ s.gameData.inquisitor_name ++ " takes 1 wound.") s
    let s := if s.gameData.wounds ≥ 3 then endGame env false s else s
    ("Beast survives. You take 1 wound.", s)
  else
    let s := { s with gameData :=
      { s.gameData with wounds := s.gameData.wounds + 2 } }
    let s := updateHealth s
    let s := addToLog env
      ("The Beast is unharmed! " ++ s.gameData.inquisitor_name ++ " takes 2 wounds.") s
    let s := if s.gameData.wounds ≥ 3 then endGame env false s else s
    ("Beast unharmed. You take 2 wounds.", s)

/-- `huntBeast()`. -/
def huntBeast (env : Env) (s : EngineState) : EngineState × GameResponse :=
  if s.gameData.beast_location ≠ some s.gameData.player_location then
    failureResponse "You must be in the same location as the Beast to hunt!" s
  else if s.gameData.actions_remaining ≤ 0 then
    failureResponse "No actions remaining" s
  else
    let diceCount := min 5 s.gameData.investigation.secrets.length
    if diceCount = 0 then
      respond true "Hunt failed. You take 1 wound with no dice." none none
        (huntNoDice env s)
    else
      let (diceRolls, s) := rollHuntDice env diceCount diceCount s
      let lowestRoll := lowestOf diceRolls
      let (outcomeMessage, s) := huntOutcome env lowestRoll s
      let s := if ¬ s.gameData.game_ended then { s with gamePhase := GamePhase.takeActions }
        else s
      respond true ("Hunt complete. " ++ outcomeMessage) (some diceRolls) (some lowestRoll) s

/-- `advanceDay()`. -/
def advanceDay (env : Env) (s : EngineState) : EngineState × GameResponse :=
  let s := addToLog env
    "All actions for this turn have been used. Proceeding to The Beast Approaches phase..." s
  let s := addToLog env
    ("[Round " ++ toString s.gameData.current_round ++ "] Day "
      ++ toString s.gameData.current_day ++ " of " ++ s.gameData.current_month
      ++ ". The round has ended.") s
  let s := { s with gameData :=
    { s.gameData with current_day := s.gameData.current_day + 1 } }
  let s :=
    if s.gameData.current_day > 31 then
      let nextIndex :=
        match MONTH_SEQUENCE.indexOf? s.gameData.current_month with
        | some i => (i + 1) % MONTH_SEQUENCE.length
        | none => 0
      { s with gameData :=
        { s.gameData with current_day := 1
                          current_month := MONTH_SEQUENCE.getD nextIndex "" } }
    else s
  let s := { s with
    gameData := { s.gameData with
      current_round := s.gameData.current_round + 1
      days_elapsed := s.gameData.days_elapsed + 1
      actions_remaining := 2 }
    gamePhase := GamePhase.beastApproaches }
  let s := addToLog env
    ("[Round " ++ toString s.gameData.current_round ++ "] Day "
      ++ toString s.gameData.current_day ++ " of " ++ s.gameData.current_month
      ++ ". The investigation continues...") s
  let s := executeBeastApproachesPhase env s
  let s := if s.gamePhase ≠ GamePhase.hunt then { s with gamePhase := GamePhase.takeActions }
    else s
  respond true "New day begins! Beast approaches phase completed." none none s

/-- `completeAction()`. -/
def completeAction (env : Env) (s : EngineState) : EngineState × GameResponse :=
  let s := { s with gameData :=
    { s.gameData with actions_remaining := s.gameData.actions_remaining - 1 } }
  if s.gameData.actions_remaining ≤ 0 then
    advanceDay env s
  else
    respond true ("Actions remaining: " ++ toString s.gameData.actions_remaining) none none s

/-- `getGameState()` (its static `locations`/`location_connections`
copies are constants, not modelled). -/
def getGameState (s : EngineState) : EngineState × GameResponse :=
  respond true "Game state retrieved" none none s

/-- The constructor, with the seed supplied (the `Date.now()` seed
default is the caller-absent case, out of scope for the claims).
`start_time` takes clock sample `0`, the opening log entry (pushed
directly, without the round prefix of `addToLog`) takes sample `1`. -/
def initState (env : Env) (beastName inquisitorName : String) (seed : ℕ) : EngineState :=
  let data : GameData :=
    { beast_name := beastName, inquisitor_name := inquisitorName
      current_day := 13, current_month := "May", current_year := 1746
      seed := seed, player_location := "II", health := MAX_WOUNDS
      knowledge := 0, wounds := 0, beast_location := none, beast_distance := none
      investigation := { rumors := [], secrets := [], notes := [] }
      wards := [], weapons := [], rumors_tokens := []
      game_ended := false, victorious := false
      game_phase := GamePhase.beastApproaches, actions_remaining := 2
      current_round := 1, start_time := 0, days_elapsed := 0
      investigations_completed := 0, equipment_collected := 0 }
  let s : EngineState :=
    { gameData := data, gamePhase := GamePhase.beastApproaches, gameLog := []
      rngCtr := 0, idCtr := 0, timeCtr := 1 }
  let (lid, s) := generateId env s
  let (t, s) := dateNow s
  let s := { s with gameLog :=
    [{ id := lid
       message := inquisitorName
         ++ " begins their investigation at All-Hallows-The-Great on May 13, 1746."
       timestamp := t }] }
  let s := executeBeastApproachesPhase env s
  let s := if s.gamePhase ≠ GamePhase.hunt then { s with gamePhase := GamePhase.takeActions }
    else s
  updateHealth s

/-- The public operations, as one call alphabet. -/
inductive Op
  | movePlayer (targetLocation : String)
  | investigate
  | verifyRumors
  | huntBeast
  | completeAction
  | getGameState
deriving DecidableEq, Repr

def applyOp (env : Env) (op : Op) (s : EngineState) : EngineState × GameResponse :=
  match op with
  | .movePlayer t => movePlayer env t s
  | .investigate => investigate env s
  | .verifyRumors => verifyRumors env s
  | .huntBeast => huntBeast env s
  | .completeAction => completeAction env s
  | .getGameState => getGameState s

/-- Final state after a call sequence. -/
def runOps (env : Env) (s : EngineState) : List Op → EngineState
  | [] => s
  | op :: rest => runOps env (applyOp env op s).1 rest

/-- The responses of a call sequence, in order. -/
def runResponses (env : Env) (s : EngineState) : List Op → List GameResponse
  | [] => []
  | op :: rest =>
    let (s', r) := applyOp env op s
    r :: runResponses env s' rest

/-- Engine states reachable from some construction by some call
sequence. -/
def Reachable (s : EngineState) : Prop :=
  ∃ env beastName inquisitorName seed ops,
    runOps env (initState env beastName inquisitorName seed) ops = s

/-- Realizes the stored `Date.now()` sample index of a snapshot against
a clock stream, yielding the caller-visible `start_time`. -/
def realizeGameData (clock : ℕ → ℕ) (d : GameData) : GameData :=
  { d with start_time := clock d.start_time }

/-- Realizes log entry timestamps against a clock stream. -/
def realizeLogEntry (clock : ℕ → ℕ) (e : GameLogEntry) : GameLogEntry :=
  { e with timestamp := clock e.timestamp }

/-- The caller-visible response of an engine whose `Date.now()` samples
come from `clock`. -/
def realizeResponse (clock : ℕ → ℕ) (r : GameResponse) : GameResponse :=
  { r with game_data := r.game_data.map (realizeGameData clock)
           game_log := r.game_log.map (List.map (realizeLogEntry clock)) }

/-! ### Graph-side specification vocabulary -/

/-- The eight location ids of the fixed map. -/
def LOCATION_IDS : List String := LOCATIONS.map Location.id

/-- Consecutive elements of the list are adjacent in the graph. -/
def chainOK : List String → Bool
  | [] => true
  | [_] => true
  | x :: y :: rest => (LOCATION_CONNECTIONS x).contains y && chainOK (y :: rest)

/-- `p` is a walk from `a` to `b` along graph edges, inclusive. -/
def IsWalk (a b : String) (p : List String) : Prop :=
  p.head? = some a ∧ p.getLast? = some b ∧ chainOK p = true

instance (a b : String) (p : List String) : Decidable (IsWalk a b p) := by
  unfold IsWalk; infer_instance

/-- One breadth-first expansion of a node set. -/
def expandOnce (l : List String) : List String :=
  (l ++ l.flatMap LOCATION_CONNECTIONS).dedup

/-- Nodes within `n` hops of `a`. -/
def ball (a : String) : ℕ → List String
  | 0 => [a]
  | n + 1 => expandOnce (ball a n)

/-- Hop distance on the fixed graph (the graph has diameter `< 9`, so
the `getD` default is dead code on location ids). -/
def bfsDist (a b : String) : ℕ :=
  (((List.range 9).find? (fun n => (ball a n).contains b))).getD 9

/-! ### Views used by the frame lemmas -/

/-- The part of an engine state that the Beast-Approaches sub-phase
never writes (everything but the beast position, the token record, the
log, the live phase and the stream counters). -/
structure CoreView where
  beast_name : String
  inquisitor_name : String
  current_day : ℕ
  current_month : String
  current_year : ℕ
  seed : ℕ
  player_location : String
  health : ℕ
  knowledge : ℕ
  wounds : ℕ
  investigation : Investigation
  wards : List Item
  weapons : List Item
  game_ended : Bool
  victorious : Bool
  game_phase : GamePhase
  actions_remaining : ℤ
  current_round : ℕ
  start_time : ℕ
  days_elapsed : ℕ
  investigations_completed : ℕ
  equipment_collected : ℕ
deriving DecidableEq

def coreOf (s : EngineState) : CoreView :=
  { beast_name := s.gameData.beast_name, inquisitor_name := s.gameData.inquisitor_name
    current_day := s.gameData.current_day, current_month := s.gameData.current_month
    current_year := s.gameData.current_year, seed := s.gameData.seed
    player_location := s.gameData.player_location, health := s.gameData.health
    knowledge := s.gameData.knowledge, wounds := s.gameData.wounds
    investigation := s.gameData.investigation, wards := s.gameData.wards
    weapons := s.gameData.weapons, game_ended := s.gameData.game_ended
    victorious := s.gameData.victorious, game_phase := s.gameData.game_phase
    actions_remaining := s.gameData.actions_remaining
    current_round := s.gameData.current_round, start_time := s.gameData.start_time
    days_elapsed := s.gameData.days_elapsed
    investigations_completed := s.gameData.investigations_completed
    equipment_collected := s.gameData.equipment_collected }

/-- `health` is in sync with `wounds` (what `updateHealth` enforces). -/
def HealthSynced (s : EngineState) : Prop :=
  s.gameData.health = MAX_WOUNDS - s.gameData.wounds

/-! ### Concrete environments and runs used by witnesses -/

/-- An all-zero environment (every rng draw `0`, empty ids). -/
def envZero : Env := ⟨fun _ => "", fun _ => 0⟩

/-- An environment whose rng stream drives the constructor roll and
both day-advance rolls onto location `II`: draw `1/8` rolls a `2` on
the d8. -/
def envDefeat : Env := ⟨fun _ => "", fun _ => mkRat 1 8⟩

/-- A reachable defeated state: the constructor places the token at the
player's location `II`, the second `completeAction` materializes the
beast there (surprise hunt), and three no-dice hunts take the player to
three wounds. -/
def sDefeat : EngineState :=
  runOps envDefeat (initState envDefeat "The Eleventh Beast" "Abraham" 7)
    [Op.completeAction, Op.completeAction, Op.huntBeast, Op.huntBeast, Op.huntBeast]

/-- Rng stream reaching a hunt with one learned secret: constructor
d8 → `II` (token), investigate picks rumor 0, verify roll `1` learns
it, day-advance d8 → `II` (token again), next day-advance d8 → `II`
materializes the beast on the player (surprise hunt); the first hunt
die is a `1` (victory), a later draw `1/3` rolls a `3`. -/
def envVictory : Env :=
  ⟨fun n => "id" ++ toString n,
    fun n => if n = 0 ∨ n = 3 ∨ n = 4 then mkRat 1 8
      else if n = 6 then mkRat 1 3 else 0⟩

/-- A reachable state in the hunt phase with one secret, the beast on
the player and two actions remaining. -/
def sHuntReady : EngineState :=
  runOps envVictory (initState envVictory "The Eleventh Beast" "Abraham" 9)
    [Op.investigate, Op.verifyRumors, Op.completeAction, Op.completeAction,
     Op.completeAction, Op.completeAction]

/-- The victorious state reached from `sHuntReady` by one hunt whose
single die rolls `1`. -/
def sVictory : EngineState := (huntBeast envVictory sHuntReady).1

/-- The state after two no-dice hunts in the defeat run: two wounds,
beast on the player, hunt still possible. -/
def sTwoWounds : EngineState :=
  runOps envDefeat (initState envDefeat "The Eleventh Beast" "Abraham" 7)
    [Op.completeAction, Op.completeAction, Op.huntBeast, Op.huntBeast]

/-- A state with the beast at `VIII` and the player at `IV` (the
configuration of the repository's own beast-movement test). -/
def sBeastApart : EngineState :=
  let s := initState envZero "The Eleventh Beast" "Abraham" 3
  { s with gameData :=
    { s.gameData with beast_location := some "VIII", player_location := "IV" } }

/-- A state with no actions remaining (the repo's UI normally prevents
this, but the engine accepts it). -/
def sNoActions : EngineState :=
  let s := initState envZero "The Eleventh Beast" "Abraham" 3
  { s with gameData := { s.gameData with actions_remaining := 0 } }

/-- The caller-visible snapshot a response carries. -/
def snapshotOf (s : EngineState) : GameData :=
  { (updateHealth s).gameData with game_phase := s.gamePhase }

/-- The log messages carried by a response. -/
def responseMessages (r : GameResponse) : Option (List String) :=
  r.game_log.map (List.map GameLogEntry.message)

/-- A snapshot with its clock-derived field cleared. -/
def scrubGameData (d : GameData) : GameData := { d with start_time := 0 }

/-- The clock-independent part of a response's snapshot. -/
def scrubbedSnapshot (r : GameResponse) : Option GameData :=
  r.game_data.map scrubGameData

/-- The C9 relation between rumors and secrets: every secret stems
from a learned rumor with the same id, every learned rumor has been
promoted to a secret, and secret ids are unique. -/
def SecretsRumorsOK (rumors : List Rumor) (secrets : List Secret) : Prop :=
  (∀ sec ∈ secrets, ∃ r ∈ rumors, r.id = sec.id ∧ r.is_learned = true)
  ∧ (∀ r ∈ rumors, r.is_learned = true → ∃ sec ∈ secrets, sec.id = r.id)
  ∧ (secrets.map Secret.id).Nodup

/-- Auxiliary invariant: a learned rumor has been through verification. -/
def LearnedVerified (rumors : List Rumor) : Prop :=
  ∀ r ∈ rumors, r.is_learned = true → r.verified = true

/-- The strengthened reachability invariant behind C9. -/
def EngineInv (s : EngineState) : Prop :=
  SecretsRumorsOK s.gameData.investigation.rumors s.gameData.investigation.secrets
  ∧ LearnedVerified s.gameData.investigation.rumors

/-!
## Lemmas and theorems

Everything from here on is proof: first the generic frame lemmas, then
one theorem (plus witness or counterexample) per claim.
-/

/-! ### Small frame lemmas for the state-threading helpers -/

@[simp] lemma gameData_generateId (env : Env) (s : EngineState) :
    ((generateId env s).2).gameData = s.gameData := rfl

@[simp] lemma gameData_dateNow (s : EngineState) :
    ((dateNow s).2).gameData = s.gameData := rfl

@[simp] lemma gameData_addToLog (env : Env) (m : String) (s : EngineState) :
    (addToLog env m s).gameData = s.gameData := rfl

@[simp] lemma gameData_rollDie (env : Env) (k : ℕ) (c : String) (s : EngineState) :
    ((rollDie env k c s).2).gameData = s.gameData := rfl

@[simp] lemma gameData_randomChoice (env : Env) (l : List RumorDefinition)
    (s : EngineState) : ((randomChoice env l s).2).gameData = s.gameData := rfl

@[simp] lemma gamePhase_addToLog (env : Env) (m : String) (s : EngineState) :
    (addToLog env m s).gamePhase = s.gamePhase := rfl

@[simp] lemma gamePhase_rollDie (env : Env) (k : ℕ) (c : String) (s : EngineState) :
    ((rollDie env k c s).2).gamePhase = s.gamePhase := rfl

@[simp] lemma gamePhase_updateHealth (s : EngineState) :
    (updateHealth s).gamePhase = s.gamePhase := rfl

@[simp] lemma gameLog_updateHealth (s : EngineState) :
    (updateHealth s).gameLog = s.gameLog := rfl

@[simp] lemma respond_fst (b : Bool) (m : String) (d : Option (List ℤ))
    (l : Option ℤ) (s : EngineState) : (respond b m d l s).1 = updateHealth s := rfl

@[simp] lemma respond_success (b : Bool) (m : String) (d : Option (List ℤ))
    (l : Option ℤ) (s : EngineState) : ((respond b m d l s).2).success = b := rfl

@[simp] lemma respond_game_data (b : Bool) (m : String) (d : Option (List ℤ))
    (l : Option ℤ) (s : EngineState) :
    ((respond b m d l s).2).game_data = some (snapshotOf s) := rfl

@[simp] lemma respond_game_log (b : Bool) (m : String) (d : Option (List ℤ))
    (l : Option ℤ) (s : EngineState) :
    ((respond b m d l s).2).game_log = some s.gameLog := rfl

@[simp] lemma wounds_updateHealth (s : EngineState) :
    (updateHealth s).gameData.wounds = s.gameData.wounds := rfl

@[simp] lemma actions_updateHealth (s : EngineState) :
    (updateHealth s).gameData.actions_remaining = s.gameData.actions_remaining := rfl

@[simp] lemma game_ended_updateHealth (s : EngineState) :
    (updateHealth s).gameData.game_ended = s.gameData.game_ended := rfl

@[simp] lemma victorious_updateHealth (s : EngineState) :
    (updateHealth s).gameData.victorious = s.gameData.victorious := rfl

@[simp] lemma investigation_updateHealth (s : EngineState) :
    (updateHealth s).gameData.investigation = s.gameData.investigation := rfl

@[simp] lemma round_updateHealth (s : EngineState) :
    (updateHealth s).gameData.current_round = s.gameData.current_round := rfl

@[simp] lemma day_updateHealth (s : EngineState) :
    (updateHealth s).gameData.current_day = s.gameData.current_day := rfl

@[simp] lemma month_updateHealth (s : EngineState) :
    (updateHealth s).gameData.current_month = s.gameData.current_month := rfl

@[simp] lemma days_elapsed_updateHealth (s : EngineState) :
    (updateHealth s).gameData.days_elapsed = s.gameData.days_elapsed := rfl

lemma healthSynced_updateHealth (s : EngineState) : HealthSynced (updateHealth s) := rfl

lemma snapshotOf_updateHealth (s : EngineState) :
    snapshotOf (updateHealth s) = snapshotOf s := rfl

/-! ### Frame lemmas for the Beast-Approaches sub-phase -/

@[simp] lemma coreOf_addToLog (env : Env) (m : String) (s : EngineState) :
    coreOf (addToLog env m s) = coreOf s := rfl

@[simp] lemma coreOf_rollDie (env : Env) (k : ℕ) (c : String) (s : EngineState) :
    coreOf (rollDie env k c s).2 = coreOf s := rfl

@[simp] lemma coreOf_setPhase (s : EngineState) (p : GamePhase) :
    coreOf { s with gamePhase := p } = coreOf s := rfl

lemma coreOf_moveBeastCloser (env : Env) (s : EngineState) :
    coreOf (moveBeastCloser env s) = coreOf s := by
  unfold moveBeastCloser
  split
  · rfl
  · dsimp only
    split_ifs <;> rfl

lemma coreOf_beastApproachTail (env : Env) (t n : String) (s : EngineState) :
    coreOf (beastApproachTail env t n s) = coreOf s := by
  unfold beastApproachTail
  dsimp only
  split_ifs <;>
    simp only [coreOf_setPhase, coreOf_addToLog, coreOf_moveBeastCloser, coreOf_rollDie]

lemma coreOf_execBeast (env : Env) (s : EngineState) :
    coreOf (executeBeastApproachesPhase env s) = coreOf s := by
  unfold executeBeastApproachesPhase
  dsimp only
  split_ifs <;>
    simp only [coreOf_beastApproachTail, coreOf_setPhase, coreOf_addToLog,
      coreOf_moveBeastCloser, coreOf_rollDie] <;> rfl

/-! ### Graph lemmas (claim C7) -/

lemma findPath_valid_and_length :
    ∀ a ∈ LOCATION_IDS, ∀ b ∈ LOCATION_IDS,
      IsWalk a b (findPath a b) ∧ (findPath a b).length = bfsDist a b + 1 := by
  decide

lemma bfsDist_self : ∀ a ∈ LOCATION_IDS, bfsDist a a = 0 := by decide

lemma connections_sub_ids :
    ∀ a b : String, (LOCATION_CONNECTIONS a).contains b = true → b ∈ LOCATION_IDS := by
  intro a b hb
  unfold LOCATION_CONNECTIONS at hb
  split at hb <;>
    (have hb' := List.mem_of_elem_eq_true hb; fin_cases hb' <;> decide)

lemma bfsDist_triangle :
    ∀ a ∈ LOCATION_IDS, ∀ b ∈ LOCATION_IDS, ∀ c ∈ LOCATION_IDS,
      (LOCATION_CONNECTIONS a).contains b = true → bfsDist a c ≤ bfsDist b c + 1 := by
  decide

lemma chain_last_mem :
    ∀ (p : List String) (a b : String), a ∈ LOCATION_IDS → p.head? = some a →
      p.getLast? = some b → chainOK p = true → b ∈ LOCATION_IDS := by
  intro p
  induction p with
  | nil => intro a b _ hh _ _; simp at hh
  | cons x rest ih =>
    intro a b ha hh hl hc
    cases rest with
    | nil =>
      simp at hh hl
      subst hh; subst hl; exact ha
    | cons y rest' =>
      simp only [List.head?_cons, Option.some.injEq] at hh
      rw [List.getLast?_cons_cons] at hl
      simp only [chainOK, Bool.and_eq_true] at hc
      subst hh
      exact ih y b (connections_sub_ids x y hc.1) rfl hl hc.2

lemma chain_length_ge :
    ∀ (p : List String) (a b : String), a ∈ LOCATION_IDS → b ∈ LOCATION_IDS →
      p.head? = some a → p.getLast? = some b → chainOK p = true →
      bfsDist a b + 1 ≤ p.length := by
  intro p
  induction p with
  | nil => intro a b _ _ hh _ _; simp at hh
  | cons x rest ih =>
    intro a b ha hb hh hl hc
    cases rest with
    | nil =>
      simp at hh hl
      subst hh; subst hl
      have h0 := bfsDist_self x ha
      simp [h0]
    | cons y rest' =>
      simp only [List.head?_cons, Option.some.injEq] at hh
      rw [List.getLast?_cons_cons] at hl
      simp only [chainOK, Bool.and_eq_true] at hc
      subst hh
      have hy : y ∈ LOCATION_IDS := connections_sub_ids x y hc.1
      have hrec := ih y b hy hb rfl hl hc.2
      have htri := bfsDist_triangle x ha y hy b hb hc.1
      simp only [List.length_cons] at hrec ⊢
      omega

/-- C7: on the fixed adjacency graph, `findPath` returns a walk from
`from` to `to` inclusive whose consecutive elements are adjacent and
whose length is minimal among all such walks (every pair of location
ids is reachable, so the empty-sequence case is vacuous there); and
`calculateDistance` returns `0` on equal endpoints and otherwise
`path.length - 1`. -/
theorem findPath_shortest_spec (a b : String)
    (ha : a ∈ LOCATION_IDS) (hb : b ∈ LOCATION_IDS) :
    IsWalk a b (findPath a b)
    ∧ (∀ q, IsWalk a b q → (findPath a b).length ≤ q.length)
    ∧ (a = b → calculateDistance a b = 0)
    ∧ (a ≠ b → calculateDistance a b = ((findPath a b).length : ℤ) - 1) := by
  have h1 := findPath_valid_and_length a ha b hb
  refine ⟨h1.1, ?_, ?_, ?_⟩
  · intro q hq
    rw [h1.2]
    exact chain_length_ge q a b ha hb hq.1 hq.2.1 hq.2.2
  · intro h
    simp [calculateDistance, h]
  · intro h
    have hlen : (findPath a b).length > 0 := by rw [h1.2]; omega
    simp [calculateDistance, h, hlen]

/-- Witness for C7 at the concrete pair `I`, `VIII`. -/
theorem findPath_shortest_spec_witness :
    ("I" ∈ LOCATION_IDS) ∧ ("VIII" ∈ LOCATION_IDS)
    ∧ IsWalk "I" "VIII" (findPath "I" "VIII")
    ∧ calculateDistance "I" "VIII" = ((findPath "I" "VIII").length : ℤ) - 1 :=
  ⟨by decide, by decide,
    (findPath_shortest_spec "I" "VIII" (by decide) (by decide)).1,
    (findPath_shortest_spec "I" "VIII" (by decide) (by decide)).2.2.2 (by decide)⟩

/-! ### Claim C6: beast movement -/

/-- C6: with the beast materialized, `moveBeastCloser` moves it onto
the player (distance 0, hunt) when the beast-to-player path has length
exactly 2, advances it one step to the path's index-1 element with
distance `path.length - 2` when the path is longer, and leaves it in
place when no path exists. -/
theorem moveBeastCloser_spec (env : Env) (s : EngineState) (bl : String)
    (hb : s.gameData.beast_location = some bl) :
    ((findPath bl s.gameData.player_location).length = 2 →
        (moveBeastCloser env s).gameData.beast_location = some s.gameData.player_location
        ∧ (moveBeastCloser env s).gameData.beast_distance = some 0
        ∧ (moveBeastCloser env s).gamePhase = GamePhase.hunt)
    ∧ ((findPath bl s.gameData.player_location).length > 2 →
        (moveBeastCloser env s).gameData.beast_location =
          some (((findPath bl s.gameData.player_location).get? 1).getD bl)
        ∧ (moveBeastCloser env s).gameData.beast_distance =
          some (((findPath bl s.gameData.player_location).length : ℤ) - 2))
    ∧ ((findPath bl s.gameData.player_location).length = 0 →
        (moveBeastCloser env s).gameData.beast_location = s.gameData.beast_location) := by
  unfold moveBeastCloser
  rw [hb]
  dsimp only
  refine ⟨?_, ?_, ?_⟩ <;> intro h
  · rw [if_neg (by omega), if_pos h]
    simp
  · rw [if_neg (by omega), if_neg (by omega), if_pos h]
    simp
  · rw [if_pos h, hb]

/-- Witness for C6 at the repository test configuration: beast at
`VIII`, player at `IV`, path `[VIII, V, IV]`. -/
theorem moveBeastCloser_spec_witness :
    sBeastApart.gameData.beast_location = some "VIII"
    ∧ (findPath "VIII" sBeastApart.gameData.player_location).length > 2
    ∧ (moveBeastCloser envZero sBeastApart).gameData.beast_location =
        some (((findPath "VIII" sBeastApart.gameData.player_location).get? 1).getD "VIII")
    ∧ (moveBeastCloser envZero sBeastApart).gameData.beast_distance =
        some (((findPath "VIII" sBeastApart.gameData.player_location).length : ℤ) - 2) :=
  ⟨by decide, by decide,
    ((moveBeastCloser_spec envZero sBeastApart "VIII" (by decide)).2.1 (by decide)).1,
    ((moveBeastCloser_spec envZero sBeastApart "VIII" (by decide)).2.1 (by decide)).2⟩

/-! ### Field projections of the Beast-Approaches frame lemma -/

lemma wounds_execBeast (env : Env) (s : EngineState) :
    (executeBeastApproachesPhase env s).gameData.wounds = s.gameData.wounds :=
  congrArg CoreView.wounds (coreOf_execBeast env s)

lemma actions_execBeast (env : Env) (s : EngineState) :
    (executeBeastApproachesPhase env s).gameData.actions_remaining =
      s.gameData.actions_remaining :=
  congrArg CoreView.actions_remaining (coreOf_execBeast env s)

lemma game_ended_execBeast (env : Env) (s : EngineState) :
    (executeBeastApproachesPhase env s).gameData.game_ended = s.gameData.game_ended :=
  congrArg CoreView.game_ended (coreOf_execBeast env s)

lemma victorious_execBeast (env : Env) (s : EngineState) :
    (executeBeastApproachesPhase env s).gameData.victorious = s.gameData.victorious :=
  congrArg CoreView.victorious (coreOf_execBeast env s)

lemma investigation_execBeast (env : Env) (s : EngineState) :
    (executeBeastApproachesPhase env s).gameData.investigation =
      s.gameData.investigation :=
  congrArg CoreView.investigation (coreOf_execBeast env s)

lemma round_execBeast (env : Env) (s : EngineState) :
    (executeBeastApproachesPhase env s).gameData.current_round =
      s.gameData.current_round :=
  congrArg CoreView.current_round (coreOf_execBeast env s)

lemma day_execBeast (env : Env) (s : EngineState) :
    (executeBeastApproachesPhase env s).gameData.current_day = s.gameData.current_day :=
  congrArg CoreView.current_day (coreOf_execBeast env s)

lemma month_execBeast (env : Env) (s : EngineState) :
    (executeBeastApproachesPhase env s).gameData.current_month =
      s.gameData.current_month :=
  congrArg CoreView.current_month (coreOf_execBeast env s)

lemma days_elapsed_execBeast (env : Env) (s : EngineState) :
    (executeBeastApproachesPhase env s).gameData.days_elapsed =
      s.gameData.days_elapsed :=
  congrArg CoreView.days_elapsed (coreOf_execBeast env s)

/-! ### State effects of the inner loops -/

lemma gameData_verifyOneRumor (env : Env) (r : Rumor) (s : EngineState) :
    ((verifyOneRumor env r s).2).gameData = s.gameData := by
  unfold verifyOneRumor
  dsimp only
  split_ifs <;> simp

lemma gameData_verifySweep (env : Env) :
    ∀ (rs : List Rumor) (s : EngineState),
      ((verifySweep env rs s).2.2.2).gameData = s.gameData := by
  intro rs
  induction rs with
  | nil => intro s; rfl
  | cons r rest ih =>
    intro s
    unfold verifySweep
    dsimp only
    split_ifs <;> rw [ih] <;> rw [gameData_verifyOneRumor]

lemma gameData_rollHuntDice (env : Env) (total : ℕ) :
    ∀ (n : ℕ) (s : EngineState), ((rollHuntDice env total n s).2).gameData = s.gameData := by
  intro n
  induction n with
  | zero => intro s; rfl
  | succ k ih =>
    intro s
    unfold rollHuntDice
    dsimp only
    rw [ih, gameData_rollDie]

@[simp] lemma gameData_setPhase (s : EngineState) (p : GamePhase) :
    ({ s with gamePhase := p } : EngineState).gameData = s.gameData := rfl

lemma wounds_endGame (env : Env) (v : Bool) (s : EngineState) :
    (endGame env v s).gameData.wounds = s.gameData.wounds := by cases v <;> rfl

lemma actions_endGame (env : Env) (v : Bool) (s : EngineState) :
    (endGame env v s).gameData.actions_remaining = s.gameData.actions_remaining := by
  cases v <;> rfl

lemma game_ended_endGame (env : Env) (v : Bool) (s : EngineState) :
    (endGame env v s).gameData.game_ended = true := by cases v <;> rfl

lemma victorious_endGame (env : Env) (v : Bool) (s : EngineState) :
    (endGame env v s).gameData.victorious = v := by cases v <;> rfl

lemma investigation_endGame (env : Env) (v : Bool) (s : EngineState) :
    (endGame env v s).gameData.investigation = s.gameData.investigation := by
  cases v <;> rfl

/-! ### Per-operation effect lemmas on wounds, actions and game end -/

lemma movePlayer_frame (env : Env) (t : String) (s : EngineState) :
    ((movePlayer env t s).1).gameData.wounds = s.gameData.wounds
    ∧ ((movePlayer env t s).1).gameData.actions_remaining = s.gameData.actions_remaining
    ∧ ((movePlayer env t s).1).gameData.game_ended = s.gameData.game_ended
    ∧ ((movePlayer env t s).1).gameData.victorious = s.gameData.victorious := by
  unfold movePlayer createGameStateResponse failureResponse
  dsimp only
  split_ifs <;> simp

lemma investigate_frame (env : Env) (s : EngineState) :
    ((investigate env s).1).gameData.wounds = s.gameData.wounds
    ∧ ((investigate env s).1).gameData.actions_remaining = s.gameData.actions_remaining
    ∧ ((investigate env s).1).gameData.game_ended = s.gameData.game_ended
    ∧ ((investigate env s).1).gameData.victorious = s.gameData.victorious := by
  unfold investigate createGameStateResponse failureResponse
  dsimp only
  split_ifs <;> simp

lemma verifyRumors_frame (env : Env) (s : EngineState) :
    ((verifyRumors env s).1).gameData.wounds = s.gameData.wounds
    ∧ ((verifyRumors env s).1).gameData.actions_remaining = s.gameData.actions_remaining
    ∧ ((verifyRumors env s).1).gameData.game_ended = s.gameData.game_ended
    ∧ ((verifyRumors env s).1).gameData.victorious = s.gameData.victorious := by
  unfold verifyRumors createGameStateResponse failureResponse
  dsimp only
  split_ifs <;>
    simp [gameData_verifySweep]

lemma huntNoDice_facts (env : Env) (s : EngineState) :
    (huntNoDice env s).gameData.wounds = s.gameData.wounds + 1
    ∧ (huntNoDice env s).gameData.actions_remaining = s.gameData.actions_remaining
    ∧ (huntNoDice env s).gameData.investigation = s.gameData.investigation
    ∧ (s.gameData.wounds + 1 ≥ 3 →
        (huntNoDice env s).gameData.game_ended = true
        ∧ (huntNoDice env s).gameData.victorious = false)
    ∧ (s.gameData.wounds + 1 < 3 →
        (huntNoDice env s).gameData.game_ended = s.gameData.game_ended
        ∧ (huntNoDice env s).gameData.victorious = s.gameData.victorious
        ∧ (s.gameData.game_ended = false →
            (huntNoDice env s).gamePhase = GamePhase.takeActions))
    ∧ (s.gameData.game_ended = true → (huntNoDice env s).gameData.game_ended = true) := by
  unfold huntNoDice
  dsimp only
  simp only [gameData_addToLog, wounds_updateHealth, game_ended_updateHealth]
  split_ifs with h1 h2 <;>
    simp_all [wounds_endGame, actions_endGame, game_ended_endGame, victorious_endGame,
      investigation_endGame]

lemma gamePhase_endGame (env : Env) (v : Bool) (s : EngineState) :
    (endGame env v s).gamePhase = GamePhase.gameEnded := by cases v <;> rfl

lemma huntOutcome_low (env : Env) (low : ℤ) (s : EngineState) (hl : low ≤ 2) :
    (huntOutcome env low s).1 = "Victory! Beast slain!"
    ∧ ((huntOutcome env low s).2).gameData.wounds = s.gameData.wounds
    ∧ ((huntOutcome env low s).2).gameData.actions_remaining = s.gameData.actions_remaining
    ∧ ((huntOutcome env low s).2).gameData.investigation = s.gameData.investigation
    ∧ ((huntOutcome env low s).2).gameData.game_ended = true
    ∧ ((huntOutcome env low s).2).gameData.victorious = true
    ∧ ((huntOutcome env low s).2).gamePhase = GamePhase.gameEnded := by
  unfold huntOutcome
  rw [if_pos hl]
  dsimp only
  refine ⟨rfl, ?_, ?_, ?_, ?_, ?_, ?_⟩ <;>
    simp [wounds_endGame, actions_endGame, investigation_endGame, game_ended_endGame,
      victorious_endGame, gamePhase_endGame]

lemma huntOutcome_mid (env : Env) (low : ℤ) (s : EngineState)
    (hl2 : ¬ low ≤ 2) (hl4 : low ≤ 4) :
    (huntOutcome env low s).1 = "Beast survives. You take 1 wound."
    ∧ ((huntOutcome env low s).2).gameData.wounds = s.gameData.wounds + 1
    ∧ ((huntOutcome env low s).2).gameData.actions_remaining = s.gameData.actions_remaining
    ∧ ((huntOutcome env low s).2).gameData.investigation = s.gameData.investigation
    ∧ (s.gameData.wounds + 1 ≥ 3 →
        ((huntOutcome env low s).2).gameData.game_ended = true
        ∧ ((huntOutcome env low s).2).gameData.victorious = false
        ∧ ((huntOutcome env low s).2).gamePhase = GamePhase.gameEnded)
    ∧ (s.gameData.wounds + 1 < 3 →
        ((huntOutcome env low s).2).gameData.game_ended = s.gameData.game_ended
        ∧ ((huntOutcome env low s).2).gameData.victorious = s.gameData.victorious
        ∧ ((huntOutcome env low s).2).gamePhase = s.gamePhase) := by
  unfold huntOutcome
  rw [if_neg hl2, if_pos hl4]
  dsimp only
  simp only [gameData_addToLog, wounds_updateHealth]
  split_ifs with h3
  · refine ⟨by simp, ?_, ?_, ?_, fun _ => ⟨?_, ?_, ?_⟩, fun hb => absurd h3 (by omega)⟩ <;>
      simp [wounds_endGame, actions_endGame, investigation_endGame, game_ended_endGame,
        victorious_endGame, gamePhase_endGame]
  · refine ⟨by simp, ?_, ?_, ?_, fun hb => absurd hb h3, fun _ => ⟨?_, ?_, ?_⟩⟩ <;> simp
lemma huntOutcome_high (env : Env) (low : ℤ) (s : EngineState) (hl4 : ¬ low ≤ 4) :
    (huntOutcome env low s).1 = "Beast unharmed. You take 2 wounds."
    ∧ ((huntOutcome env low s).2).gameData.wounds = s.gameData.wounds + 2
    ∧ ((huntOutcome env low s).2).gameData.actions_remaining = s.gameData.actions_remaining
    ∧ ((huntOutcome env low s).2).gameData.investigation = s.gameData.investigation
    ∧ (s.gameData.wounds + 2 ≥ 3 →
        ((huntOutcome env low s).2).gameData.game_ended = true
        ∧ ((huntOutcome env low s).2).gameData.victorious = false
        ∧ ((huntOutcome env low s).2).gamePhase = GamePhase.gameEnded)
    ∧ (s.gameData.wounds + 2 < 3 →
        ((huntOutcome env low s).2).gameData.game_ended = s.gameData.game_ended
        ∧ ((huntOutcome env low s).2).gameData.victorious = s.gameData.victorious
        ∧ ((huntOutcome env low s).2).gamePhase = s.gamePhase) := by
  unfold huntOutcome
  rw [if_neg (by omega : ¬ low ≤ 2), if_neg hl4]
  dsimp only
  simp only [gameData_addToLog, wounds_updateHealth]
  split_ifs with h3
  · refine ⟨by simp, ?_, ?_, ?_, fun _ => ⟨?_, ?_, ?_⟩, fun hb => absurd h3 (by omega)⟩ <;>
      simp [wounds_endGame, actions_endGame, investigation_endGame, game_ended_endGame,
        victorious_endGame, gamePhase_endGame]
  · refine ⟨by simp, ?_, ?_, ?_, fun hb => absurd hb h3, fun _ => ⟨?_, ?_, ?_⟩⟩ <;> simp

lemma huntBeast_frame (env : Env) (s : EngineState) :
    s.gameData.wounds ≤ ((huntBeast env s).1).gameData.wounds
    ∧ ((huntBeast env s).1).gameData.actions_remaining = s.gameData.actions_remaining
    ∧ (s.gameData.game_ended = true → ((huntBeast env s).1).gameData.game_ended = true)
    ∧ (s.gameData.wounds < 3 → 3 ≤ ((huntBeast env s).1).gameData.wounds →
        ((huntBeast env s).1).gameData.game_ended = true
        ∧ ((huntBeast env s).1).gameData.victorious = false) := by
  unfold huntBeast failureResponse
  dsimp only
  set s2 := (rollHuntDice env (min 5 s.gameData.investigation.secrets.length)
    (min 5 s.gameData.investigation.secrets.length) s).2 with hs2
  set low := lowestOf (rollHuntDice env (min 5 s.gameData.investigation.secrets.length)
    (min 5 s.gameData.investigation.secrets.length) s).1 with hlow
  set s3 := (huntOutcome env low s2).2 with hs3
  have hgd : s2.gameData = s.gameData := by
    rw [hs2]; exact gameData_rollHuntDice env _ _ s
  have key : s.gameData.wounds ≤ s3.gameData.wounds
      ∧ s3.gameData.actions_remaining = s.gameData.actions_remaining
      ∧ (s.gameData.game_ended = true → s3.gameData.game_ended = true)
      ∧ (s.gameData.wounds < 3 → 3 ≤ s3.gameData.wounds →
          s3.gameData.game_ended = true ∧ s3.gameData.victorious = false) := by
    rcases le_or_lt low 2 with hl2 | hl2
    · have hv := huntOutcome_low env low s2 hl2
      rw [hgd] at hv
      rw [← hs3] at hv
      exact ⟨by omega, hv.2.2.1, fun _ => hv.2.2.2.2.1,
        fun hw hw3 => absurd hw3 (by omega)⟩
    · rcases le_or_lt low 4 with hl4 | hl4
      · have hv := huntOutcome_mid env low s2 (by omega) hl4
        rw [hgd] at hv
        rw [← hs3] at hv
        refine ⟨by omega, hv.2.2.1, fun hg => ?_, fun hw hw3 => ?_⟩
        · rcases le_or_lt 3 (s.gameData.wounds + 1) with h3 | h3
          · exact (hv.2.2.2.2.1 h3).1
          · rw [(hv.2.2.2.2.2 h3).1]; exact hg
        · have h3 := hv.2.2.2.2.1 (by omega)
          exact ⟨h3.1, h3.2.1⟩
      · have hv := huntOutcome_high env low s2 (by omega)
        rw [hgd] at hv
        rw [← hs3] at hv
        refine ⟨by omega, hv.2.2.1, fun hg => ?_, fun hw hw3 => ?_⟩
        · rcases le_or_lt 3 (s.gameData.wounds + 2) with h3 | h3
          · exact (hv.2.2.2.2.1 h3).1
          · rw [(hv.2.2.2.2.2 h3).1]; exact hg
        · have h3 := hv.2.2.2.2.1 (by omega)
          exact ⟨h3.1, h3.2.1⟩
  split_ifs with h1 h2 h3 h4
  · refine ⟨le_refl _, rfl, fun hg => hg, fun hw hw3 => absurd hw3 ?_⟩
    simp only [respond_fst, wounds_updateHealth]
    omega
  · refine ⟨le_refl _, rfl, fun hg => hg, fun hw hw3 => absurd hw3 ?_⟩
    simp only [respond_fst, wounds_updateHealth]
    omega
  · have hf := huntNoDice_facts env s
    simp only [respond_fst, wounds_updateHealth, actions_updateHealth,
      game_ended_updateHealth, victorious_updateHealth]
    exact ⟨by omega, hf.2.1, hf.2.2.2.2.2, fun hw hw3 => hf.2.2.2.1 (by omega)⟩
  · simp only [respond_fst, wounds_updateHealth, actions_updateHealth,
      game_ended_updateHealth, victorious_updateHealth, gameData_setPhase]
    exact key
  · simp only [respond_fst, wounds_updateHealth, actions_updateHealth,
      game_ended_updateHealth, victorious_updateHealth]
    exact key

lemma completeAction_frame (env : Env) (s : EngineState) :
    ((completeAction env s).1).gameData.wounds = s.gameData.wounds
    ∧ ((completeAction env s).1).gameData.actions_remaining =
        (if s.gameData.actions_remaining - 1 ≤ 0 then 2
          else s.gameData.actions_remaining - 1)
    ∧ ((completeAction env s).1).gameData.game_ended = s.gameData.game_ended
    ∧ ((completeAction env s).1).gameData.victorious = s.gameData.victorious := by
  unfold completeAction advanceDay
  dsimp only
  split_ifs <;>
    simp_all [wounds_execBeast, actions_execBeast, game_ended_execBeast,
      victorious_execBeast]

lemma getGameState_frame (s : EngineState) :
    ((getGameState s).1).gameData.wounds = s.gameData.wounds
    ∧ ((getGameState s).1).gameData.actions_remaining = s.gameData.actions_remaining
    ∧ ((getGameState s).1).gameData.game_ended = s.gameData.game_ended
    ∧ ((getGameState s).1).gameData.victorious = s.gameData.victorious := by
  unfold getGameState
  simp

/-! ### Claim C3: wounds monotonicity and forced defeat -/

lemma wounds_applyOp_le (env : Env) (op : Op) (s : EngineState) :
    s.gameData.wounds ≤ ((applyOp env op s).1).gameData.wounds := by
  cases op with
  | movePlayer t => exact le_of_eq (movePlayer_frame env t s).1.symm
  | investigate => exact le_of_eq (investigate_frame env s).1.symm
  | verifyRumors => exact le_of_eq (verifyRumors_frame env s).1.symm
  | huntBeast => exact (huntBeast_frame env s).1
  | completeAction => exact le_of_eq (completeAction_frame env s).1.symm
  | getGameState => exact le_of_eq (getGameState_frame s).1.symm

lemma wounds_runOps_le (env : Env) :
    ∀ (ops : List Op) (s : EngineState),
      s.gameData.wounds ≤ (runOps env s ops).gameData.wounds := by
  intro ops
  induction ops with
  | nil => intro s; exact le_refl _
  | cons op rest ih =>
    intro s
    exact le_trans (wounds_applyOp_le env op s) (ih _)

/-- C3: across every operation sequence the wounds counter never
decreases, and any single operation whose execution raises wounds from
below 3 to 3 or more leaves `game_ended = true` and
`victorious = false` when it returns. -/
theorem wounds_monotone_defeat (env : Env) (s : EngineState) :
    (∀ ops : List Op, s.gameData.wounds ≤ (runOps env s ops).gameData.wounds)
    ∧ (∀ op : Op, s.gameData.wounds < 3 →
        3 ≤ ((applyOp env op s).1).gameData.wounds →
        ((applyOp env op s).1).gameData.game_ended = true
        ∧ ((applyOp env op s).1).gameData.victorious = false) := by
  refine ⟨fun ops => wounds_runOps_le env ops s, fun op hw hw3 => ?_⟩
  cases op with
  | movePlayer t =>
    dsimp only [applyOp] at hw3 ⊢
    rw [(movePlayer_frame env t s).1] at hw3
    exact absurd hw3 (by omega)
  | investigate =>
    dsimp only [applyOp] at hw3 ⊢
    rw [(investigate_frame env s).1] at hw3
    exact absurd hw3 (by omega)
  | verifyRumors =>
    dsimp only [applyOp] at hw3 ⊢
    rw [(verifyRumors_frame env s).1] at hw3
    exact absurd hw3 (by omega)
  | huntBeast =>
    dsimp only [applyOp] at hw3 ⊢
    exact (huntBeast_frame env s).2.2.2 hw hw3
  | completeAction =>
    dsimp only [applyOp] at hw3 ⊢
    rw [(completeAction_frame env s).1] at hw3
    exact absurd hw3 (by omega)
  | getGameState =>
    dsimp only [applyOp] at hw3 ⊢
    rw [(getGameState_frame s).1] at hw3
    exact absurd hw3 (by omega)

/-- Witness for C3: in the defeat run, the third no-dice hunt raises
wounds from 2 to 3 and the state comes back ended and defeated. -/
theorem wounds_monotone_defeat_witness :
    sTwoWounds.gameData.wounds < 3
    ∧ 3 ≤ ((applyOp envDefeat Op.huntBeast sTwoWounds).1).gameData.wounds
    ∧ ((applyOp envDefeat Op.huntBeast sTwoWounds).1).gameData.game_ended = true
    ∧ ((applyOp envDefeat Op.huntBeast sTwoWounds).1).gameData.victorious = false :=
  ⟨by decide, by decide,
    ((wounds_monotone_defeat envDefeat sTwoWounds).2 Op.huntBeast (by decide)
      (by decide)).1,
    ((wounds_monotone_defeat envDefeat sTwoWounds).2 Op.huntBeast (by decide)
      (by decide)).2⟩

/-! ### Claim C10: the action budget frame -/

/-- C10: `movePlayer`, `investigate`, `verifyRumors` and `huntBeast`
never change `actions_remaining`; only `completeAction` does
(decrement, or reset to 2 through the day advance it triggers); and
`movePlayer` succeeds on an adjacent target regardless of the action
budget. -/
theorem actions_remaining_frame (env : Env) (s : EngineState) :
    (∀ t, ((movePlayer env t s).1).gameData.actions_remaining =
        s.gameData.actions_remaining)
    ∧ ((investigate env s).1).gameData.actions_remaining = s.gameData.actions_remaining
    ∧ ((verifyRumors env s).1).gameData.actions_remaining = s.gameData.actions_remaining
    ∧ ((huntBeast env s).1).gameData.actions_remaining = s.gameData.actions_remaining
    ∧ ((completeAction env s).1).gameData.actions_remaining =
        (if s.gameData.actions_remaining - 1 ≤ 0 then 2
          else s.gameData.actions_remaining - 1)
    ∧ (∀ t, (LOCATION_CONNECTIONS s.gameData.player_location).contains t = true →
        ((movePlayer env t s).2).success = true) := by
  refine ⟨fun t => (movePlayer_frame env t s).2.1, (investigate_frame env s).2.1,
    (verifyRumors_frame env s).2.1, (huntBeast_frame env s).2.1,
    (completeAction_frame env s).2.1, fun t ht => ?_⟩
  unfold movePlayer
  rw [if_pos ht]
  dsimp only
  simp [createGameStateResponse]

/-- Witness for C10: from a state with zero actions remaining, moving
to the adjacent location `I` still succeeds. -/
theorem actions_remaining_frame_witness :
    sNoActions.gameData.actions_remaining = 0
    ∧ (LOCATION_CONNECTIONS sNoActions.gameData.player_location).contains "I" = true
    ∧ ((movePlayer envZero "I" sNoActions).2).success = true :=
  ⟨by decide, by decide,
    (actions_remaining_frame envZero sNoActions).2.2.2.2.2 "I" (by decide)⟩

/-! ### Claim C5: behaviour of an ended game -/

/-- C5 counterexample: `sDefeat` is a reachable state with
`game_ended = true`, yet `movePlayer` still mutates it (the operations
never check `game_ended`), so the state is not immutable. -/
theorem ended_state_not_immutable :
    Reachable sDefeat
    ∧ sDefeat.gameData.game_ended = true
    ∧ (applyOp envDefeat (Op.movePlayer "I") sDefeat).1 ≠ sDefeat :=
  ⟨⟨envDefeat, "The Eleventh Beast", "Abraham", 7,
      [Op.completeAction, Op.completeAction, Op.huntBeast, Op.huntBeast,
        Op.huntBeast], rfl⟩,
    by decide, by decide⟩

lemma game_ended_applyOp (env : Env) (op : Op) (s : EngineState)
    (h : s.gameData.game_ended = true) :
    ((applyOp env op s).1).gameData.game_ended = true := by
  cases op with
  | movePlayer t =>
    dsimp only [applyOp]; rw [(movePlayer_frame env t s).2.2.1]; exact h
  | investigate =>
    dsimp only [applyOp]; rw [(investigate_frame env s).2.2.1]; exact h
  | verifyRumors =>
    dsimp only [applyOp]; rw [(verifyRumors_frame env s).2.2.1]; exact h
  | huntBeast =>
    dsimp only [applyOp]; exact (huntBeast_frame env s).2.2.1 h
  | completeAction =>
    dsimp only [applyOp]; rw [(completeAction_frame env s).2.2.1]; exact h
  | getGameState =>
    dsimp only [applyOp]; rw [(getGameState_frame s).2.2.1]; exact h

/-- C5 amended: once `game_ended` is true it stays true under every
further operation and operation sequence, but the state is not
read-only — operations can still mutate other fields (see the
counterexample). -/
theorem game_ended_stays (env : Env) (s : EngineState)
    (h : s.gameData.game_ended = true) :
    (∀ op : Op, ((applyOp env op s).1).gameData.game_ended = true)
    ∧ (∀ ops : List Op, (runOps env s ops).gameData.game_ended = true) := by
  refine ⟨fun op => game_ended_applyOp env op s h, fun ops => ?_⟩
  induction ops generalizing s with
  | nil => exact h
  | cons op rest ih => exact ih _ (game_ended_applyOp env op s h)

/-- Witness for the amended C5 at the reachable defeated state. -/
theorem game_ended_stays_witness :
    sDefeat.gameData.game_ended = true
    ∧ ((applyOp envDefeat (Op.movePlayer "I") sDefeat).1).gameData.game_ended = true :=
  ⟨by decide,
    (game_ended_stays envDefeat sDefeat (by decide)).1 (Op.movePlayer "I")⟩

/-! ### Claim C4: failure paths mutate nothing -/

lemma healthSynced_applyOp (env : Env) (op : Op) (s : EngineState) :
    HealthSynced ((applyOp env op s).1) := by
  cases op <;> dsimp only [applyOp]
  case movePlayer t =>
    unfold movePlayer createGameStateResponse failureResponse
    dsimp only
    split_ifs <;> exact healthSynced_updateHealth _
  case investigate =>
    unfold investigate createGameStateResponse failureResponse
    dsimp only
    split_ifs <;> exact healthSynced_updateHealth _
  case verifyRumors =>
    unfold verifyRumors createGameStateResponse failureResponse
    dsimp only
    split_ifs <;> exact healthSynced_updateHealth _
  case huntBeast =>
    unfold huntBeast failureResponse
    dsimp only
    split_ifs <;> exact healthSynced_updateHealth _
  case completeAction =>
    unfold completeAction advanceDay
    dsimp only
    split_ifs <;> exact healthSynced_updateHealth _
  case getGameState =>
    exact healthSynced_updateHealth _

lemma healthSynced_initState (env : Env) (b i : String) (seed : ℕ) :
    HealthSynced (initState env b i seed) :=
  healthSynced_updateHealth _

lemma reachable_healthSynced {s : EngineState} (hr : Reachable s) : HealthSynced s := by
  obtain ⟨env, b, i, seed, ops, rfl⟩ := hr
  have main : ∀ (ops : List Op) (t : EngineState), HealthSynced t →
      HealthSynced (runOps env t ops) := by
    intro ops
    induction ops with
    | nil => intro t ht; exact ht
    | cons op rest ih => intro t _; exact ih _ (healthSynced_applyOp env op t)
  exact main ops _ (healthSynced_initState env b i seed)

lemma updateHealth_id {s : EngineState} (h : HealthSynced s) : updateHealth s = s := by
  unfold updateHealth
  unfold HealthSynced at h
  rw [← h]

/-- C4: whenever a precondition check of `movePlayer`, `investigate`,
`verifyRumors` or `huntBeast` fails, the operation returns
`success = false` and the engine state — game data, log, phase, and
counters — is exactly what it was before the call. -/
theorem failure_paths_unchanged (env : Env) (s : EngineState) (hr : Reachable s) :
    (∀ t, (LOCATION_CONNECTIONS s.gameData.player_location).contains t = false →
        (movePlayer env t s).1 = s ∧ ((movePlayer env t s).2).success = false)
    ∧ (s.gameData.actions_remaining ≤ 0 ∨
        s.gameData.rumors_tokens.contains s.gameData.player_location = false →
        (investigate env s).1 = s ∧ ((investigate env s).2).success = false)
    ∧ (s.gameData.player_location ≠ "II" ∨ s.gameData.actions_remaining ≤ 0 ∨
        (s.gameData.investigation.rumors.filter (fun r => !r.verified)).length = 0 →
        (verifyRumors env s).1 = s ∧ ((verifyRumors env s).2).success = false)
    ∧ (s.gameData.beast_location ≠ some s.gameData.player_location ∨
        s.gameData.actions_remaining ≤ 0 →
        (huntBeast env s).1 = s ∧ ((huntBeast env s).2).success = false) := by
  have hs : updateHealth s = s := updateHealth_id (reachable_healthSynced hr)
  refine ⟨fun t ht => ?_, fun h => ?_, fun h => ?_, fun h => ?_⟩
  · unfold movePlayer failureResponse
    rw [if_neg (by simpa using ht)]
    exact ⟨hs, rfl⟩
  · unfold investigate failureResponse
    by_cases ha : s.gameData.actions_remaining ≤ 0
    · rw [if_pos ha]
      exact ⟨hs, rfl⟩
    · rcases h with h | h
      · exact absurd h ha
      · rw [if_neg ha, if_pos (by simpa using h)]
        exact ⟨hs, rfl⟩
  · unfold verifyRumors failureResponse
    by_cases h2 : s.gameData.player_location ≠ "II"
    · rw [if_pos h2]
      exact ⟨hs, rfl⟩
    · rw [if_neg h2]
      by_cases ha : s.gameData.actions_remaining ≤ 0
      · rw [if_pos ha]
        exact ⟨hs, rfl⟩
      · rw [if_neg ha]
        rcases h with h | h | h
        · exact absurd h h2
        · exact absurd h ha
        · rw [if_pos h]
          exact ⟨hs, rfl⟩
  · unfold huntBeast failureResponse
    by_cases hb : s.gameData.beast_location ≠ some s.gameData.player_location
    · rw [if_pos hb]
      exact ⟨hs, rfl⟩
    · rw [if_neg hb]
      rcases h with h | h
      · exact absurd h hb
      · rw [if_pos h]
        exact ⟨hs, rfl⟩

/-- Witness for C4 on the freshly constructed engine: every failing
precondition leaves the state untouched. -/
theorem failure_paths_unchanged_witness :
    ((movePlayer envZero "VIII" (initState envZero "The Eleventh Beast" "Abraham" 3)).1
        = initState envZero "The Eleventh Beast" "Abraham" 3)
    ∧ ((investigate envZero (initState envZero "The Eleventh Beast" "Abraham" 3)).1
        = initState envZero "The Eleventh Beast" "Abraham" 3)
    ∧ ((verifyRumors envZero (initState envZero "The Eleventh Beast" "Abraham" 3)).1
        = initState envZero "The Eleventh Beast" "Abraham" 3)
    ∧ ((huntBeast envZero (initState envZero "The Eleventh Beast" "Abraham" 3)).1
        = initState envZero "The Eleventh Beast" "Abraham" 3)
    ∧ ((huntBeast envZero (initState envZero "The Eleventh Beast" "Abraham" 3)).2).success
        = false :=
  ⟨((failure_paths_unchanged envZero _
      ⟨envZero, "The Eleventh Beast", "Abraham", 3, [], rfl⟩).1 "VIII" (by decide)).1,
    ((failure_paths_unchanged envZero _
      ⟨envZero, "The Eleventh Beast", "Abraham", 3, [], rfl⟩).2.1 (Or.inr (by decide))).1,
    ((failure_paths_unchanged envZero _
      ⟨envZero, "The Eleventh Beast", "Abraham", 3, [], rfl⟩).2.2.1
        (Or.inr (Or.inr (by decide)))).1,
    ((failure_paths_unchanged envZero _
      ⟨envZero, "The Eleventh Beast", "Abraham", 3, [], rfl⟩).2.2.2 (Or.inl (by decide))).1,
    ((failure_paths_unchanged envZero _
      ⟨envZero, "The Eleventh Beast", "Abraham", 3, [], rfl⟩).2.2.2 (Or.inl (by decide))).2⟩

/-! ### Claim C8: the day advance triggered by the last action -/

/-- C8: with one action remaining, `completeAction` performs the day
advance inside the same call: round and days-elapsed counters go up by
one, the day of the month advances (wrapping into the next month of
the fixed sequence, circularly, past day 31), the action budget resets
to 2, the transient Beast-Approaches sub-phase is fully resolved (the
returned phase is `take-actions` or `hunt`, never `beast-approaches`),
and the single response carries the snapshot of the state after the
sub-phase ran. -/
theorem completeAction_day_advance (env : Env) (s : EngineState)
    (h : s.gameData.actions_remaining = 1) :
    ((completeAction env s).1).gameData.current_round = s.gameData.current_round + 1
    ∧ ((completeAction env s).1).gameData.days_elapsed = s.gameData.days_elapsed + 1
    ∧ (s.gameData.current_day + 1 ≤ 31 →
        ((completeAction env s).1).gameData.current_day = s.gameData.current_day + 1
        ∧ ((completeAction env s).1).gameData.current_month = s.gameData.current_month)
    ∧ (31 < s.gameData.current_day + 1 →
        ((completeAction env s).1).gameData.current_day = 1
        ∧ ∀ i, MONTH_SEQUENCE.indexOf? s.gameData.current_month = some i →
            ((completeAction env s).1).gameData.current_month =
              MONTH_SEQUENCE.getD ((i + 1) % MONTH_SEQUENCE.length) "")
    ∧ ((completeAction env s).1).gameData.actions_remaining = 2
    ∧ (((completeAction env s).1).gamePhase = GamePhase.hunt ∨
        ((completeAction env s).1).gamePhase = GamePhase.takeActions)
    ∧ ((completeAction env s).2).success = true
    ∧ ((completeAction env s).2).game_data =
        some (snapshotOf ((completeAction env s).1)) := by
  unfold completeAction advanceDay
  dsimp only
  rw [if_pos (show s.gameData.actions_remaining - 1 ≤ 0 by omega)]
  simp only [gameData_addToLog]
  split_ifs with hm hp hp
  · -- month wraps, sub-phase left the hunt untriggered
    refine ⟨?_, ?_, fun hd => absurd hd (by omega), fun hd => ⟨?_, fun i hi => ?_⟩,
      ?_, ?_, rfl, ?_⟩
    · simp only [respond_fst, respond_game_data, round_updateHealth, day_updateHealth,
        month_updateHealth, days_elapsed_updateHealth, actions_updateHealth,
        gamePhase_updateHealth, gameData_setPhase, round_execBeast, day_execBeast,
        month_execBeast, days_elapsed_execBeast, actions_execBeast, gameData_addToLog,
        snapshotOf_updateHealth]
    · simp only [respond_fst, respond_game_data, round_updateHealth, day_updateHealth,
        month_updateHealth, days_elapsed_updateHealth, actions_updateHealth,
        gamePhase_updateHealth, gameData_setPhase, round_execBeast, day_execBeast,
        month_execBeast, days_elapsed_execBeast, actions_execBeast, gameData_addToLog,
        snapshotOf_updateHealth]
    · simp only [respond_fst, respond_game_data, round_updateHealth, day_updateHealth,
        month_updateHealth, days_elapsed_updateHealth, actions_updateHealth,
        gamePhase_updateHealth, gameData_setPhase, round_execBeast, day_execBeast,
        month_execBeast, days_elapsed_execBeast, actions_execBeast, gameData_addToLog,
        snapshotOf_updateHealth]
    · simp only [respond_fst, respond_game_data, round_updateHealth, day_updateHealth,
        month_updateHealth, days_elapsed_updateHealth, actions_updateHealth,
        gamePhase_updateHealth, gameData_setPhase, round_execBeast, day_execBeast,
        month_execBeast, days_elapsed_execBeast, actions_execBeast, gameData_addToLog,
        snapshotOf_updateHealth]
      rw [hi]
    · simp only [respond_fst, respond_game_data, round_updateHealth, day_updateHealth,
        month_updateHealth, days_elapsed_updateHealth, actions_updateHealth,
        gamePhase_updateHealth, gameData_setPhase, round_execBeast, day_execBeast,
        month_execBeast, days_elapsed_execBeast, actions_execBeast, gameData_addToLog,
        snapshotOf_updateHealth]
    · exact Or.inr (by simp only [respond_fst, respond_game_data, round_updateHealth, day_updateHealth,
        month_updateHealth, days_elapsed_updateHealth, actions_updateHealth,
        gamePhase_updateHealth, gameData_setPhase, round_execBeast, day_execBeast,
        month_execBeast, days_elapsed_execBeast, actions_execBeast, gameData_addToLog,
        snapshotOf_updateHealth])
    · simp only [respond_fst, respond_game_data, round_updateHealth, day_updateHealth,
        month_updateHealth, days_elapsed_updateHealth, actions_updateHealth,
        gamePhase_updateHealth, gameData_setPhase, round_execBeast, day_execBeast,
        month_execBeast, days_elapsed_execBeast, actions_execBeast, gameData_addToLog,
        snapshotOf_updateHealth]
  · -- month wraps, sub-phase escalated to a hunt
    refine ⟨?_, ?_, fun hd => absurd hd (by omega), fun hd => ⟨?_, fun i hi => ?_⟩,
      ?_, ?_, rfl, ?_⟩
    · simp only [respond_fst, respond_game_data, round_updateHealth, day_updateHealth,
        month_updateHealth, days_elapsed_updateHealth, actions_updateHealth,
        gamePhase_updateHealth, gameData_setPhase, round_execBeast, day_execBeast,
        month_execBeast, days_elapsed_execBeast, actions_execBeast, gameData_addToLog,
        snapshotOf_updateHealth]
    · simp only [respond_fst, respond_game_data, round_updateHealth, day_updateHealth,
        month_updateHealth, days_elapsed_updateHealth, actions_updateHealth,
        gamePhase_updateHealth, gameData_setPhase, round_execBeast, day_execBeast,
        month_execBeast, days_elapsed_execBeast, actions_execBeast, gameData_addToLog,
        snapshotOf_updateHealth]
    · simp only [respond_fst, respond_game_data, round_updateHealth, day_updateHealth,
        month_updateHealth, days_elapsed_updateHealth, actions_updateHealth,
        gamePhase_updateHealth, gameData_setPhase, round_execBeast, day_execBeast,
        month_execBeast, days_elapsed_execBeast, actions_execBeast, gameData_addToLog,
        snapshotOf_updateHealth]
    · simp only [respond_fst, respond_game_data, round_updateHealth, day_updateHealth,
        month_updateHealth, days_elapsed_updateHealth, actions_updateHealth,
        gamePhase_updateHealth, gameData_setPhase, round_execBeast, day_execBeast,
        month_execBeast, days_elapsed_execBeast, actions_execBeast, gameData_addToLog,
        snapshotOf_updateHealth]
      rw [hi]
    · simp only [respond_fst, respond_game_data, round_updateHealth, day_updateHealth,
        month_updateHealth, days_elapsed_updateHealth, actions_updateHealth,
        gamePhase_updateHealth, gameData_setPhase, round_execBeast, day_execBeast,
        month_execBeast, days_elapsed_execBeast, actions_execBeast, gameData_addToLog,
        snapshotOf_updateHealth]
    · refine Or.inl ?_
      simp only [respond_fst, respond_game_data, round_updateHealth, day_updateHealth,
        month_updateHealth, days_elapsed_updateHealth, actions_updateHealth,
        gamePhase_updateHealth, gameData_setPhase, round_execBeast, day_execBeast,
        month_execBeast, days_elapsed_execBeast, actions_execBeast, gameData_addToLog,
        snapshotOf_updateHealth]
      exact not_not.mp hp
    · simp only [respond_fst, respond_game_data, round_updateHealth, day_updateHealth,
        month_updateHealth, days_elapsed_updateHealth, actions_updateHealth,
        gamePhase_updateHealth, gameData_setPhase, round_execBeast, day_execBeast,
        month_execBeast, days_elapsed_execBeast, actions_execBeast, gameData_addToLog,
        snapshotOf_updateHealth]
  · -- plain day increment, no hunt
    refine ⟨?_, ?_, fun hd => ⟨?_, ?_⟩, fun hd => absurd hd (by omega),
      ?_, ?_, rfl, ?_⟩
    · simp only [respond_fst, respond_game_data, round_updateHealth, day_updateHealth,
        month_updateHealth, days_elapsed_updateHealth, actions_updateHealth,
        gamePhase_updateHealth, gameData_setPhase, round_execBeast, day_execBeast,
        month_execBeast, days_elapsed_execBeast, actions_execBeast, gameData_addToLog,
        snapshotOf_updateHealth]
    · simp only [respond_fst, respond_game_data, round_updateHealth, day_updateHealth,
        month_updateHealth, days_elapsed_updateHealth, actions_updateHealth,
        gamePhase_updateHealth, gameData_setPhase, round_execBeast, day_execBeast,
        month_execBeast, days_elapsed_execBeast, actions_execBeast, gameData_addToLog,
        snapshotOf_updateHealth]
    · simp only [respond_fst, respond_game_data, round_updateHealth, day_updateHealth,
        month_updateHealth, days_elapsed_updateHealth, actions_updateHealth,
        gamePhase_updateHealth, gameData_setPhase, round_execBeast, day_execBeast,
        month_execBeast, days_elapsed_execBeast, actions_execBeast, gameData_addToLog,
        snapshotOf_updateHealth]
    · simp only [respond_fst, respond_game_data, round_updateHealth, day_updateHealth,
        month_updateHealth, days_elapsed_updateHealth, actions_updateHealth,
        gamePhase_updateHealth, gameData_setPhase, round_execBeast, day_execBeast,
        month_execBeast, days_elapsed_execBeast, actions_execBeast, gameData_addToLog,
        snapshotOf_updateHealth]
    · simp only [respond_fst, respond_game_data, round_updateHealth, day_updateHealth,
        month_updateHealth, days_elapsed_updateHealth, actions_updateHealth,
        gamePhase_updateHealth, gameData_setPhase, round_execBeast, day_execBeast,
        month_execBeast, days_elapsed_execBeast, actions_execBeast, gameData_addToLog,
        snapshotOf_updateHealth]
    · exact Or.inr (by simp only [respond_fst, respond_game_data, round_updateHealth, day_updateHealth,
        month_updateHealth, days_elapsed_updateHealth, actions_updateHealth,
        gamePhase_updateHealth, gameData_setPhase, round_execBeast, day_execBeast,
        month_execBeast, days_elapsed_execBeast, actions_execBeast, gameData_addToLog,
        snapshotOf_updateHealth])
    · simp only [respond_fst, respond_game_data, round_updateHealth, day_updateHealth,
        month_updateHealth, days_elapsed_updateHealth, actions_updateHealth,
        gamePhase_updateHealth, gameData_setPhase, round_execBeast, day_execBeast,
        month_execBeast, days_elapsed_execBeast, actions_execBeast, gameData_addToLog,
        snapshotOf_updateHealth]
  · -- plain day increment, hunt triggered
    refine ⟨?_, ?_, fun hd => ⟨?_, ?_⟩, fun hd => absurd hd (by omega),
      ?_, ?_, rfl, ?_⟩
    · simp only [respond_fst, respond_game_data, round_updateHealth, day_updateHealth,
        month_updateHealth, days_elapsed_updateHealth, actions_updateHealth,
        gamePhase_updateHealth, gameData_setPhase, round_execBeast, day_execBeast,
        month_execBeast, days_elapsed_execBeast, actions_execBeast, gameData_addToLog,
        snapshotOf_updateHealth]
    · simp only [respond_fst, respond_game_data, round_updateHealth, day_updateHealth,
        month_updateHealth, days_elapsed_updateHealth, actions_updateHealth,
        gamePhase_updateHealth, gameData_setPhase, round_execBeast, day_execBeast,
        month_execBeast, days_elapsed_execBeast, actions_execBeast, gameData_addToLog,
        snapshotOf_updateHealth]
    · simp only [respond_fst, respond_game_data, round_updateHealth, day_updateHealth,
        month_updateHealth, days_elapsed_updateHealth, actions_updateHealth,
        gamePhase_updateHealth, gameData_setPhase, round_execBeast, day_execBeast,
        month_execBeast, days_elapsed_execBeast, actions_execBeast, gameData_addToLog,
        snapshotOf_updateHealth]
    · simp only [respond_fst, respond_game_data, round_updateHealth, day_updateHealth,
        month_updateHealth, days_elapsed_updateHealth, actions_updateHealth,
        gamePhase_updateHealth, gameData_setPhase, round_execBeast, day_execBeast,
        month_execBeast, days_elapsed_execBeast, actions_execBeast, gameData_addToLog,
        snapshotOf_updateHealth]
    · simp only [respond_fst, respond_game_data, round_updateHealth, day_updateHealth,
        month_updateHealth, days_elapsed_updateHealth, actions_updateHealth,
        gamePhase_updateHealth, gameData_setPhase, round_execBeast, day_execBeast,
        month_execBeast, days_elapsed_execBeast, actions_execBeast, gameData_addToLog,
        snapshotOf_updateHealth]
    · refine Or.inl ?_
      simp only [respond_fst, respond_game_data, round_updateHealth, day_updateHealth,
        month_updateHealth, days_elapsed_updateHealth, actions_updateHealth,
        gamePhase_updateHealth, gameData_setPhase, round_execBeast, day_execBeast,
        month_execBeast, days_elapsed_execBeast, actions_execBeast, gameData_addToLog,
        snapshotOf_updateHealth]
      exact not_not.mp hp
    · simp only [respond_fst, respond_game_data, round_updateHealth, day_updateHealth,
        month_updateHealth, days_elapsed_updateHealth, actions_updateHealth,
        gamePhase_updateHealth, gameData_setPhase, round_execBeast, day_execBeast,
        month_execBeast, days_elapsed_execBeast, actions_execBeast, gameData_addToLog,
        snapshotOf_updateHealth]

/-- Witness for C8: after one `completeAction` the budget is 1, and the
next `completeAction` advances the day. -/
theorem completeAction_day_advance_witness :
    ((completeAction envZero
        (completeAction envZero (initState envZero "The Eleventh Beast" "Abraham" 3)).1).1
      ).gameData.current_round =
      ((completeAction envZero (initState envZero "The Eleventh Beast" "Abraham" 3)).1
        ).gameData.current_round + 1
    ∧ ((completeAction envZero
        (completeAction envZero (initState envZero "The Eleventh Beast" "Abraham" 3)).1).1
      ).gameData.actions_remaining = 2 :=
  ⟨(completeAction_day_advance envZero _ (by decide)).1,
    (completeAction_day_advance envZero _ (by decide)).2.2.2.2.1⟩

/-! ### Claim C9: the rumor-secret correspondence -/

lemma promoteSecrets_mono :
    ∀ (rs : List Rumor) (secrets : List Secret) (wards weapons : List Item)
      (sec : Secret), sec ∈ secrets → sec ∈ (promoteSecrets rs secrets wards weapons).1 := by
  intro rs
  induction rs with
  | nil => intro secrets wards weapons sec h; exact h
  | cons r rest ih =>
    intro secrets wards weapons sec h
    unfold promoteSecrets
    split_ifs <;> exact ih _ _ _ sec (by first | exact List.mem_append_left _ h | exact h)

lemma promoteSecrets_provenance :
    ∀ (rs : List Rumor) (secrets : List Secret) (wards weapons : List Item)
      (sec : Secret), sec ∈ (promoteSecrets rs secrets wards weapons).1 →
      sec ∈ secrets ∨ ∃ r ∈ rs, r.is_learned = true ∧ sec.id = r.id := by
  intro rs
  induction rs with
  | nil => intro secrets wards weapons sec h; exact Or.inl h
  | cons r rest ih =>
    intro secrets wards weapons sec h
    unfold promoteSecrets at h
    dsimp only at h
    by_cases hg : r.is_learned = true ∧ ∀ sec ∈ secrets, sec.id ≠ r.id
    · rw [if_pos hg] at h
      rcases ih _ _ _ sec h with hmem | ⟨r', hr', hl, hid⟩
      · rcases List.mem_append.1 hmem with hold | hnew
        · exact Or.inl hold
        · rcases List.mem_singleton.1 hnew with rfl
          exact Or.inr ⟨r, List.mem_cons_self _ _, hg.1, rfl⟩
      · exact Or.inr ⟨r', List.mem_cons_of_mem _ hr', hl, hid⟩
    · rw [if_neg hg] at h
      rcases ih _ _ _ sec h with hmem | ⟨r', hr', hl, hid⟩
      · exact Or.inl hmem
      · exact Or.inr ⟨r', List.mem_cons_of_mem _ hr', hl, hid⟩

lemma promoteSecrets_nodup :
    ∀ (rs : List Rumor) (secrets : List Secret) (wards weapons : List Item),
      (secrets.map Secret.id).Nodup →
      ((promoteSecrets rs secrets wards weapons).1.map Secret.id).Nodup := by
  intro rs
  induction rs with
  | nil => intro secrets wards weapons h; exact h
  | cons r rest ih =>
    intro secrets wards weapons h
    unfold promoteSecrets
    dsimp only
    by_cases hg : r.is_learned = true ∧ ∀ sec ∈ secrets, sec.id ≠ r.id
    · rw [if_pos hg]
      refine ih _ _ _ ?_
      rw [List.map_append]
      refine List.Nodup.append h (by simp) ?_
      intro x hx hx'
      simp only [List.map_cons, List.map_nil, List.mem_singleton] at hx'
      subst hx'
      rcases List.mem_map.1 hx with ⟨sec, hsec, hid⟩
      exact hg.2 sec hsec hid
    · rw [if_neg hg]
      exact ih _ _ _ h

lemma promoteSecrets_coverage :
    ∀ (rs : List Rumor) (secrets : List Secret) (wards weapons : List Item),
      ∀ r ∈ rs, r.is_learned = true →
        ∃ sec ∈ (promoteSecrets rs secrets wards weapons).1, sec.id = r.id := by
  intro rs
  induction rs with
  | nil => intro secrets wards weapons r h; exact absurd h (List.not_mem_nil r)
  | cons r0 rest ih =>
    intro secrets wards weapons r hr hl
    rcases List.mem_cons.1 hr with rfl | hmem
    · unfold promoteSecrets
      dsimp only
      by_cases hg : r.is_learned = true ∧ ∀ sec ∈ secrets, sec.id ≠ r.id
      · rw [if_pos hg]
        refine ⟨{ id := r.id, secret := r.note, category := r.category }, ?_, rfl⟩
        exact promoteSecrets_mono rest _ _ _ _ (List.mem_append_right _ (by simp))
      · rw [if_neg hg]
        rw [not_and_or] at hg
        rcases hg with hg | hg
        · exact absurd hl hg
        · push_neg at hg
          rcases hg with ⟨sec, hsec, hid⟩
          exact ⟨sec, promoteSecrets_mono rest _ _ _ _ hsec, hid⟩
    · unfold promoteSecrets
      dsimp only
      by_cases hg : r0.is_learned = true ∧ ∀ sec ∈ secrets, sec.id ≠ r0.id
      · rw [if_pos hg]
        exact ih _ _ _ r hmem hl
      · rw [if_neg hg]
        exact ih _ _ _ r hmem hl

lemma verifyOneRumor_verified (env : Env) (r : Rumor) (s : EngineState) :
    ((verifyOneRumor env r s).1).verified = true := by
  unfold verifyOneRumor
  dsimp only
  split_ifs <;> rfl

lemma verifyOneRumor_id (env : Env) (r : Rumor) (s : EngineState) :
    ((verifyOneRumor env r s).1).id = r.id := by
  unfold verifyOneRumor
  dsimp only
  split_ifs <;> rfl

lemma verifySweep_keeps_verified (env : Env) :
    ∀ (rs : List Rumor) (s : EngineState), ∀ r ∈ rs, r.verified = true →
      r ∈ (verifySweep env rs s).1 := by
  intro rs
  induction rs with
  | nil => intro s r h; exact absurd h (List.not_mem_nil r)
  | cons r0 rest ih =>
    intro s r hr hv
    rcases List.mem_cons.1 hr with rfl | hmem
    · unfold verifySweep
      rw [if_pos hv]
      dsimp only
      exact List.mem_cons_self _ _
    · unfold verifySweep
      split_ifs <;> exact List.mem_cons_of_mem _ (ih _ r hmem hv)

lemma verifySweep_all_verified (env : Env) :
    ∀ (rs : List Rumor) (s : EngineState), ∀ r ∈ (verifySweep env rs s).1,
      r.verified = true := by
  intro rs
  induction rs with
  | nil => intro s r h; exact absurd h (List.not_mem_nil r)
  | cons r0 rest ih =>
    intro s r hr
    unfold verifySweep at hr
    split_ifs at hr with h0
    · rcases List.mem_cons.1 hr with rfl | hmem
      · exact h0
      · exact ih _ r hmem
    · rcases List.mem_cons.1 hr with rfl | hmem
      · exact verifyOneRumor_verified env r0 _
      · exact ih _ r hmem

/-- The combinatorial heart of C9: sweeping and promoting restores the
rumor-secret correspondence. -/
lemma sweep_promote_ok (env : Env) (s : EngineState) (rumors : List Rumor)
    (secrets : List Secret) (wards weapons : List Item)
    (hInv : SecretsRumorsOK rumors secrets) (hLV : LearnedVerified rumors) :
    SecretsRumorsOK (verifySweep env rumors s).1
      (promoteSecrets (verifySweep env rumors s).1 secrets wards weapons).1
    ∧ LearnedVerified (verifySweep env rumors s).1 := by
  refine ⟨⟨?_, ?_, ?_⟩, ?_⟩
  · intro sec hsec
    rcases promoteSecrets_provenance _ _ _ _ sec hsec with hold | ⟨r, hr, hl, hid⟩
    · rcases hInv.1 sec hold with ⟨r, hr, hid, hl⟩
      have hv := hLV r hr hl
      exact ⟨r, verifySweep_keeps_verified env rumors s r hr hv, hid, hl⟩
    · exact ⟨r, hr, hid.symm, hl⟩
  · intro r hr hl
    exact promoteSecrets_coverage _ _ _ _ r hr hl
  · exact promoteSecrets_nodup _ _ _ _ hInv.2.2
  · intro r hr _
    exact verifySweep_all_verified env rumors s r hr

lemma engineInv_congr {X Y : EngineState}
    (h : X.gameData.investigation = Y.gameData.investigation)
    (hy : EngineInv Y) : EngineInv X := by
  unfold EngineInv at *
  rw [h]
  exact hy

lemma investigation_movePlayer (env : Env) (t : String) (s : EngineState) :
    ((movePlayer env t s).1).gameData.investigation = s.gameData.investigation := by
  unfold movePlayer createGameStateResponse failureResponse
  dsimp only
  split_ifs <;> simp

lemma investigation_completeAction (env : Env) (s : EngineState) :
    ((completeAction env s).1).gameData.investigation = s.gameData.investigation := by
  unfold completeAction advanceDay
  dsimp only
  split_ifs <;> simp [investigation_execBeast]

lemma investigation_huntBeast (env : Env) (s : EngineState) :
    ((huntBeast env s).1).gameData.investigation = s.gameData.investigation := by
  unfold huntBeast failureResponse
  dsimp only
  set s2 := (rollHuntDice env (min 5 s.gameData.investigation.secrets.length)
    (min 5 s.gameData.investigation.secrets.length) s).2 with hs2
  set low := lowestOf (rollHuntDice env (min 5 s.gameData.investigation.secrets.length)
    (min 5 s.gameData.investigation.secrets.length) s).1 with hlow
  set s3 := (huntOutcome env low s2).2 with hs3
  have hgd : s2.gameData = s.gameData := by
    rw [hs2]; exact gameData_rollHuntDice env _ _ s
  have key : s3.gameData.investigation = s.gameData.investigation := by
    rcases le_or_lt low 2 with hl2 | hl2
    · have hv := huntOutcome_low env low s2 hl2
      rw [hgd] at hv
      rw [← hs3] at hv
      exact hv.2.2.2.1
    · rcases le_or_lt low 4 with hl4 | hl4
      · have hv := huntOutcome_mid env low s2 (by omega) hl4
        rw [hgd] at hv
        rw [← hs3] at hv
        exact hv.2.2.2.1
      · have hv := huntOutcome_high env low s2 (by omega)
        rw [hgd] at hv
        rw [← hs3] at hv
        exact hv.2.2.2.1
  split_ifs
  · simp
  · simp
  · simp only [respond_fst, investigation_updateHealth]
    exact (huntNoDice_facts env s).2.2.1
  · simp only [respond_fst, investigation_updateHealth, gameData_setPhase]
    exact key
  · simp only [respond_fst, investigation_updateHealth]
    exact key

lemma engineInv_investigate (env : Env) (s : EngineState) (h : EngineInv s) :
    EngineInv (investigate env s).1 := by
  unfold investigate createGameStateResponse failureResponse
  dsimp only
  by_cases ha : s.gameData.actions_remaining ≤ 0
  · rw [if_pos ha]
    exact engineInv_congr (by simp) h
  · rw [if_neg ha]
    by_cases ht : s.gameData.rumors_tokens.contains s.gameData.player_location = true
    · rw [if_neg (by simpa using ht)]
      obtain ⟨⟨h1, h2, h3⟩, hLV⟩ := h
      unfold EngineInv SecretsRumorsOK LearnedVerified
      refine ⟨⟨?_, ?_, ?_⟩, ?_⟩ <;>
        simp only [respond_fst, investigation_updateHealth, gameData_addToLog]
      · intro sec hsec
        rcases h1 sec hsec with ⟨r, hr, hid, hl⟩
        exact ⟨r, List.mem_append_left _ hr, hid, hl⟩
      · intro r hr hl
        rcases List.mem_append.1 hr with hold | hnew
        · exact h2 r hold hl
        · rcases List.mem_singleton.1 hnew with rfl
          simp at hl
      · exact h3
      · intro r hr hl
        rcases List.mem_append.1 hr with hold | hnew
        · exact hLV r hold hl
        · rcases List.mem_singleton.1 hnew with rfl
          simp at hl
    · rw [if_pos (by simpa using ht)]
      exact engineInv_congr (by simp) h

lemma engineInv_verifyRumors (env : Env) (s : EngineState) (h : EngineInv s) :
    EngineInv (verifyRumors env s).1 := by
  unfold verifyRumors createGameStateResponse failureResponse
  dsimp only
  by_cases h2 : s.gameData.player_location ≠ "II"
  · rw [if_pos h2]
    exact engineInv_congr (by simp) h
  · rw [if_neg h2]
    by_cases ha : s.gameData.actions_remaining ≤ 0
    · rw [if_pos ha]
      exact engineInv_congr (by simp) h
    · rw [if_neg ha]
      by_cases hu :
          (s.gameData.investigation.rumors.filter (fun r => !r.verified)).length = 0
      · rw [if_pos hu]
        exact engineInv_congr (by simp) h
      · rw [if_neg hu]
        obtain ⟨hOK, hLV⟩ := h
        have key := sweep_promote_ok env s s.gameData.investigation.rumors
          s.gameData.investigation.secrets s.gameData.wards s.gameData.weapons hOK hLV
        unfold EngineInv
        simp only [respond_fst, investigation_updateHealth, gameData_addToLog,
          gameData_verifySweep]
        exact key

lemma engineInv_applyOp (env : Env) (op : Op) (s : EngineState) (h : EngineInv s) :
    EngineInv ((applyOp env op s).1) := by
  cases op with
  | movePlayer t =>
    exact engineInv_congr (investigation_movePlayer env t s) h
  | investigate =>
    exact engineInv_investigate env s h
  | verifyRumors =>
    exact engineInv_verifyRumors env s h
  | huntBeast =>
    exact engineInv_congr (investigation_huntBeast env s) h
  | completeAction =>
    exact engineInv_congr (investigation_completeAction env s) h
  | getGameState =>
    exact engineInv_congr (investigation_updateHealth s) h

lemma engineInv_initState (env : Env) (b i : String) (seed : ℕ) :
    EngineInv (initState env b i seed) := by
  have hinv : (initState env b i seed).gameData.investigation =
      ⟨[], [], []⟩ := by
    unfold initState
    dsimp only
    split_ifs <;> simp [investigation_execBeast]
  unfold EngineInv SecretsRumorsOK LearnedVerified
  rw [hinv]
  refine ⟨⟨?_, ?_, ?_⟩, ?_⟩ <;> simp

lemma reachable_engineInv {s : EngineState} (hr : Reachable s) : EngineInv s := by
  obtain ⟨env, b, i, seed, ops, rfl⟩ := hr
  have main : ∀ (ops : List Op) (t : EngineState), EngineInv t →
      EngineInv (runOps env t ops) := by
    intro ops
    induction ops with
    | nil => intro t ht; exact ht
    | cons op rest ih => intro t ht; exact ih _ (engineInv_applyOp env op t ht)
  exact main ops _ (engineInv_initState env b i seed)

/-- C9: in every reachable state, every secret's id is the id of a
learned rumor, every learned rumor has a secret with its id, and the
secret ids are pairwise distinct. -/
theorem secrets_rumors_correspondence (s : EngineState) (hr : Reachable s) :
    (∀ sec ∈ s.gameData.investigation.secrets,
        ∃ r ∈ s.gameData.investigation.rumors, r.id = sec.id ∧ r.is_learned = true)
    ∧ (∀ r ∈ s.gameData.investigation.rumors, r.is_learned = true →
        ∃ sec ∈ s.gameData.investigation.secrets, sec.id = r.id)
    ∧ (s.gameData.investigation.secrets.map Secret.id).Nodup :=
  (reachable_engineInv hr).1

/-- Witness for C9 at the reachable state with one learned secret. -/
theorem secrets_rumors_correspondence_witness :
    (sHuntReady.gameData.investigation.secrets.map Secret.id).Nodup :=
  (secrets_rumors_correspondence sHuntReady
    ⟨envVictory, "The Eleventh Beast", "Abraham", 9,
      [Op.investigate, Op.verifyRumors, Op.completeAction, Op.completeAction,
        Op.completeAction, Op.completeAction], rfl⟩).2.2

/-! ### Claim C2: hunt resolution -/

@[simp] lemma respond_dice_rolls (b : Bool) (m : String) (d : Option (List ℤ))
    (l : Option ℤ) (s : EngineState) : ((respond b m d l s).2).dice_rolls = d := rfl

@[simp] lemma respond_lowest_roll (b : Bool) (m : String) (d : Option (List ℤ))
    (l : Option ℤ) (s : EngineState) : ((respond b m d l s).2).lowest_roll = l := rfl

lemma rollHuntDice_length (env : Env) (total : ℕ) :
    ∀ (n : ℕ) (s : EngineState), ((rollHuntDice env total n s).1).length = n := by
  intro n
  induction n with
  | zero => intro s; rfl
  | succ k ih =>
    intro s
    unfold rollHuntDice
    dsimp only
    rw [List.length_cons, ih]

lemma huntNoDice_phase (env : Env) (s : EngineState) :
    (huntNoDice env s).gameData.game_ended = false →
      (huntNoDice env s).gamePhase = GamePhase.takeActions := by
  unfold huntNoDice
  dsimp only
  split_ifs with h1 h2 <;> simp_all

/-- C2 counterexample: after a hunt victory the game is over, but the
engine accepts another `huntBeast` call (beast still on the player,
actions remaining); the single die rolls a 3, one wound is added,
the 3-wound threshold is not reached — yet the phase does not return
to take-actions as the claim states; it stays at game-ended. -/
theorem huntBeast_phase_counterexample :
    Reachable sVictory
    ∧ sVictory.gameData.beast_location = some sVictory.gameData.player_location
    ∧ 0 < sVictory.gameData.actions_remaining
    ∧ ((huntBeast envVictory sVictory).2).lowest_roll = some 3
    ∧ ((huntBeast envVictory sVictory).1).gameData.wounds =
        sVictory.gameData.wounds + 1
    ∧ ((huntBeast envVictory sVictory).1).gameData.wounds < 3
    ∧ ((huntBeast envVictory sVictory).1).gamePhase ≠ GamePhase.takeActions :=
  ⟨⟨envVictory, "The Eleventh Beast", "Abraham", 9,
      [Op.investigate, Op.verifyRumors, Op.completeAction, Op.completeAction,
        Op.completeAction, Op.completeAction, Op.huntBeast], rfl⟩,
    by decide, by decide, by decide, by decide, by decide, by decide⟩

/-- C2 (amended): with the beast on the player and actions available,
`huntBeast` rolls `min(5, secrets.length)` six-sided dice.  Zero dice:
one wound, `success = true`, no dice in the response.  Positive count:
the response carries every die and their minimum; minimum ≤ 2 slays
the beast (victory, game over, no wound); 3–4 adds one wound; ≥ 5 adds
two; after a non-victory outcome the 3-wound threshold forces a
defeat.  In every case the phase returns to take-actions exactly when
the game is not over after the outcome — if the game had already ended
before the call (the engine does not guard that), the phase stays at
game-ended. -/
theorem huntBeast_resolution (env : Env) (s : EngineState)
    (hb : s.gameData.beast_location = some s.gameData.player_location)
    (ha : 0 < s.gameData.actions_remaining) :
    (((huntBeast env s).1).gameData.game_ended = false →
        ((huntBeast env s).1).gamePhase = GamePhase.takeActions)
    ∧ ((huntBeast env s).2).success = true
    ∧ (min 5 s.gameData.investigation.secrets.length = 0 →
        ((huntBeast env s).1).gameData.wounds = s.gameData.wounds + 1
        ∧ ((huntBeast env s).2).dice_rolls = none)
    ∧ (0 < min 5 s.gameData.investigation.secrets.length →
        ∃ rolls : List ℤ,
          ((huntBeast env s).2).dice_rolls = some rolls
          ∧ rolls.length = min 5 s.gameData.investigation.secrets.length
          ∧ ((huntBeast env s).2).lowest_roll = some (lowestOf rolls)
          ∧ (lowestOf rolls ≤ 2 →
              ((huntBeast env s).1).gameData.game_ended = true
              ∧ ((huntBeast env s).1).gameData.victorious = true
              ∧ ((huntBeast env s).1).gameData.wounds = s.gameData.wounds)
          ∧ (2 < lowestOf rolls → lowestOf rolls ≤ 4 →
              ((huntBeast env s).1).gameData.wounds = s.gameData.wounds + 1)
          ∧ (4 < lowestOf rolls →
              ((huntBeast env s).1).gameData.wounds = s.gameData.wounds + 2)
          ∧ (2 < lowestOf rolls → 3 ≤ ((huntBeast env s).1).gameData.wounds →
              ((huntBeast env s).1).gameData.game_ended = true
              ∧ ((huntBeast env s).1).gameData.victorious = false)) := by
  unfold huntBeast failureResponse
  dsimp only
  rw [if_neg (by simp [hb]), if_neg (by omega)]
  by_cases hc : min 5 s.gameData.investigation.secrets.length = 0
  · rw [if_pos hc]
    have hf := huntNoDice_facts env s
    refine ⟨fun he => ?_, rfl, fun _ => ⟨?_, rfl⟩, fun hpos => absurd hc (by omega)⟩
    · simp only [respond_fst, gamePhase_updateHealth]
      simp only [respond_fst, game_ended_updateHealth] at he
      exact huntNoDice_phase env s he
    · simp only [respond_fst, wounds_updateHealth]
      exact hf.1
  · rw [if_neg hc]
    set s2 := (rollHuntDice env (min 5 s.gameData.investigation.secrets.length)
      (min 5 s.gameData.investigation.secrets.length) s).2 with hs2
    set rolls := (rollHuntDice env (min 5 s.gameData.investigation.secrets.length)
      (min 5 s.gameData.investigation.secrets.length) s).1 with hrolls
    set s3 := (huntOutcome env (lowestOf rolls) s2).2 with hs3
    have hgd : s2.gameData = s.gameData := by
      rw [hs2]; exact gameData_rollHuntDice env _ _ s
    have hlen : rolls.length = min 5 s.gameData.investigation.secrets.length := by
      rw [hrolls]; exact rollHuntDice_length env _ _ s
    have hphase : ∀ X : EngineState,
        ((if ¬ X.gameData.game_ended = true
            then ({ X with gamePhase := GamePhase.takeActions } : EngineState)
            else X)).gameData.game_ended = false →
        ((if ¬ X.gameData.game_ended = true
            then ({ X with gamePhase := GamePhase.takeActions } : EngineState)
            else X)).gamePhase = GamePhase.takeActions := by
      intro X
      split_ifs with hX <;> simp_all
    refine ⟨fun he => ?_, rfl, fun h0 => absurd h0 hc, fun _ => ⟨rolls, rfl, hlen, rfl,
      fun hl => ?_, fun hl2 hl4 => ?_, fun hl4 => ?_, fun hl2 hw => ?_⟩⟩
    · simp only [respond_fst, gamePhase_updateHealth]
      simp only [respond_fst, game_ended_updateHealth] at he
      exact hphase s3 he
    · have hv := huntOutcome_low env (lowestOf rolls) s2 hl
      rw [hgd] at hv
      rw [← hs3] at hv
      have hend : s3.gameData.game_ended = true := hv.2.2.2.2.1
      rw [if_neg (by simp [hend])]
      simp only [respond_fst, game_ended_updateHealth, victorious_updateHealth,
        wounds_updateHealth]
      exact ⟨hend, hv.2.2.2.2.2.1, hv.2.1⟩
    · have hv := huntOutcome_mid env (lowestOf rolls) s2 (by omega) hl4
      rw [hgd] at hv
      rw [← hs3] at hv
      have hwag :
          ((if ¬ s3.gameData.game_ended = true
              then ({ s3 with gamePhase := GamePhase.takeActions } : EngineState)
              else s3)).gameData = s3.gameData := by
        split_ifs <;> rfl
      simp only [respond_fst, wounds_updateHealth, hwag]
      exact hv.2.1
    · have hv := huntOutcome_high env (lowestOf rolls) s2 (by omega)
      rw [hgd] at hv
      rw [← hs3] at hv
      have hwag :
          ((if ¬ s3.gameData.game_ended = true
              then ({ s3 with gamePhase := GamePhase.takeActions } : EngineState)
              else s3)).gameData = s3.gameData := by
        split_ifs <;> rfl
      simp only [respond_fst, wounds_updateHealth, hwag]
      exact hv.2.1
    · have hwag :
          ((if ¬ s3.gameData.game_ended = true
              then ({ s3 with gamePhase := GamePhase.takeActions } : EngineState)
              else s3)).gameData = s3.gameData := by
        split_ifs <;> rfl
      simp only [respond_fst, wounds_updateHealth, game_ended_updateHealth,
        victorious_updateHealth, hwag] at hw ⊢
      rcases le_or_lt (lowestOf rolls) 4 with hl4 | hl4
      · have hv := huntOutcome_mid env (lowestOf rolls) s2 (by omega) hl4
        rw [hgd] at hv
        rw [← hs3] at hv
        have h3 := hv.2.2.2.2.1 (by omega)
        exact ⟨h3.1, h3.2.1⟩
      · have hv := huntOutcome_high env (lowestOf rolls) s2 (by omega)
        rw [hgd] at hv
        rw [← hs3] at hv
        have h3 := hv.2.2.2.2.1 (by omega)
        exact ⟨h3.1, h3.2.1⟩

/-- Witness for the amended C2 at the reachable hunt-ready state. -/
theorem huntBeast_resolution_witness :
    ((huntBeast envVictory sHuntReady).2).success = true :=
  (huntBeast_resolution envVictory sHuntReady (by decide) (by decide)).2.1

/-! ### Claim C1: determinism -/

lemma responseMessages_realize (clock : ℕ → ℕ) (r : GameResponse) :
    responseMessages (realizeResponse clock r) = responseMessages r := by
  unfold responseMessages realizeResponse realizeLogEntry
  cases r.game_log with
  | none => rfl
  | some log => simp [List.map_map, Function.comp]

lemma scrubbedSnapshot_realize (clock : ℕ → ℕ) (r : GameResponse) :
    scrubbedSnapshot (realizeResponse clock r) = scrubbedSnapshot r := by
  unfold scrubbedSnapshot realizeResponse realizeGameData scrubGameData
  cases r.game_data with
  | none => rfl
  | some d => rfl

/-- C1 counterexample: two engines built with the same beast name,
inquisitor name, seed stream and generated ids, but observed under two
different ambient clocks (`Date.now()` streams), already disagree on
the `game_data` of their first `getGameState` response: `start_time`
records the wall clock at construction. -/
theorem determinism_counterexample :
    ¬ (((runResponses envZero (initState envZero "The Eleventh Beast" "Abraham" 1)
          [Op.getGameState]).map (realizeResponse (fun _ => 0)))
        = ((runResponses envZero (initState envZero "The Eleventh Beast" "Abraham" 1)
          [Op.getGameState]).map (realizeResponse (fun _ => 1)))) := by
  decide

/-- C1 (amended): two engines constructed with the same names and
seed — hence the same `seedrandom` stream — and drawing the same
generated ids produce, for every identical call sequence and after
every call, identical log messages, and snapshots identical except for
the clock-derived `start_time` (the log entry ids and timestamps are
likewise clock/entropy-derived).  With the ambient clock also equal,
the runs agree exactly. -/
theorem determinism_up_to_clock (env : Env) (b i : String) (seed : ℕ)
    (ops : List Op) (clock1 clock2 : ℕ → ℕ) :
    ((runResponses env (initState env b i seed) ops).map
        (fun r => responseMessages (realizeResponse clock1 r)))
      = ((runResponses env (initState env b i seed) ops).map
        (fun r => responseMessages (realizeResponse clock2 r)))
    ∧ ((runResponses env (initState env b i seed) ops).map
        (fun r => scrubbedSnapshot (realizeResponse clock1 r)))
      = ((runResponses env (initState env b i seed) ops).map
        (fun r => scrubbedSnapshot (realizeResponse clock2 r))) := by
  constructor <;> simp only [responseMessages_realize, scrubbedSnapshot_realize]

end EleventhBeast
